import Mathlib

/-!
Verification of the seismic-risk scoring and trend engine.

The Python sources are embedded shallowly over exact rationals:

* Python floats are idealized as `ℚ`; `round(x, n)` becomes exact
  round-half-even on rationals (`roundTo`).
* The transcendental primitives used by the code (`math.sin`, `math.cos`,
  `math.asin`, `math.sqrt`, `math.exp`, `math.log`, `math.pow`,
  `math.radians`) are abstracted into a structure `Prims`; every function of
  the embedding is parametrised by such a bundle, and universally quantified
  theorems hold for every bundle, hence in particular for the real ones.
* Concrete counterexamples and witnesses use the computable bundle `qPrims`,
  which agrees with the mathematical functions at every argument at which the
  concrete scenarios below evaluate them (all those values are rational:
  sin 0, cos 0, asin 0, sqrt 0, exp 0, powers with integer exponents, and
  powers with base 1).
-/

unseal Rat.ofScientific Rat.mul Rat.inv Rat.add Rat.sub

deriving instance DecidableEq for Except

namespace SeismicRisk

/-- Round-half-even of a rational to an integer: the rounding mode of Python's
builtin `round`. Ties (fractional part exactly one half) go to the even
integer. -/
def roundHalfEven (x : ℚ) : ℤ :=
  let f := ⌊x⌋
  let r := x - f
  if r < 1/2 then f
  else if 1/2 < r then f + 1
  else if f % 2 = 0 then f else f + 1

/-- Python `round(x, n)` on exact rationals. -/
def roundTo (n : ℕ) (x : ℚ) : ℚ := (roundHalfEven (x * 10 ^ n) : ℚ) / 10 ^ n

/-- Python `round(x, 1)`. -/
def round1 : ℚ → ℚ := roundTo 1

/-- Python `round(x, 2)`. -/
def round2 : ℚ → ℚ := roundTo 2

/-- Python `round(x, 4)`. -/
def round4 : ℚ → ℚ := roundTo 4

/-- Python `round(x, 6)`. -/
def round6 : ℚ → ℚ := roundTo 6

/-- The transcendental primitives of Python's `math` module, abstracted:
the scoring code is embedded relative to an arbitrary such bundle. -/
structure Prims where
  sin : ℚ → ℚ
  cos : ℚ → ℚ
  asin : ℚ → ℚ
  sqrt : ℚ → ℚ
  exp : ℚ → ℚ
  log : ℚ → ℚ
  powR : ℚ → ℚ → ℚ
  deg2rad : ℚ → ℚ

/-- Linear-scan integer square root (structurally computable, so that `decide`
can evaluate it): the largest `k` with `k * k ≤ n`. -/
def natSqrtL (n : ℕ) : ℕ := (List.range (n + 1)).countP (fun k => decide (k * k ≤ n)) - 1

/-- Computable stand-in for `math.sqrt`: exact on ratios of perfect squares
(in particular `ratSqrt 0 = 0` and `ratSqrt 1 = 1`), an approximation
elsewhere. -/
def ratSqrt (q : ℚ) : ℚ :=
  if q ≤ 0 then 0 else (natSqrtL q.num.toNat : ℚ) / (natSqrtL q.den : ℚ)

/-- A computable primitive bundle used for the concrete scenarios.
Each field agrees with the mathematical function at every argument at which
the scenarios evaluate it: `sin 0 = 0`, `cos 0 = 1`, `asin 0 = 0`,
`sqrt 0 = 0`, `exp 0 = 1`, `log 1 = 0`, `powR b e = b ^ e` for integer `e`,
`powR 1 e = 1`, and `deg2rad 0 = 0`. -/
def qPrims : Prims where
  sin x := x - x ^ 3 / 6
  cos x := 1 - x ^ 2 / 2
  asin x := x + x ^ 3 / 6
  sqrt := ratSqrt
  exp x := 1 + x + x ^ 2 / 2
  log x := x - 1
  powR b e := if b = 1 then 1 else if e.den = 1 then b ^ e.num else b
  deg2rad x := x * (314159265 / 18000000000)

/-! Data model, embedded from `src/src/seismic_risk/models.py`. -/

/-- Earthquake event record (`models.Earthquake`). -/
structure Earthquake where
  id : String
  magnitude : ℚ
  latitude : ℚ
  longitude : ℚ
  depth_km : ℚ
  time_ms : ℤ
  place : String
  country_code : String := ""
  shakemap_available : Bool := false
deriving DecidableEq

/-- Airport record (`models.Airport`). -/
structure Airport where
  name : String
  iata_code : String
  latitude : ℚ
  longitude : ℚ
  municipality : String
  iso_country : String
  airport_type : String
deriving DecidableEq

/-- An airport-earthquake pairing (`models.NearbyQuake`). -/
structure NearbyQuake where
  earthquake_id : String
  magnitude : ℚ
  latitude : ℚ
  longitude : ℚ
  depth_km : ℚ
  time_ms : ℤ
  place : String
  distance_km : ℚ
  exposure_contribution : ℚ
  pga_g : Option ℚ := none
  mmi : Option ℚ := none
deriving DecidableEq

/-- An airport with at least one nearby earthquake (`models.ExposedAirport`). -/
structure ExposedAirport where
  name : String
  iata_code : String
  latitude : ℚ
  longitude : ℚ
  municipality : String
  closest_quake_distance_km : ℚ
  nearby_quakes : List NearbyQuake := []
  exposure_score : ℚ := 0
deriving DecidableEq

/-- Summary of the strongest earthquake (`models.StrongestEarthquake`). -/
structure StrongestEarthquake where
  magnitude : ℚ
  date : String
  depth_km : ℚ
  latitude : ℚ
  longitude : ℚ
deriving DecidableEq

/-! Geographic utilities, embedded from `src/src/seismic_risk/geo.py`. -/

/-- Great-circle distance in km (`geo.haversine`). -/
def haversine (P : Prims) (lat1 lon1 lat2 lon2 : ℚ) : ℚ :=
  let l1 := P.deg2rad lat1
  let o1 := P.deg2rad lon1
  let l2 := P.deg2rad lat2
  let o2 := P.deg2rad lon2
  let dlat := l2 - l1
  let dlon := o2 - o1
  let a := P.sin (dlat / 2) ^ 2 + P.cos l1 * P.cos l2 * P.sin (dlon / 2) ^ 2
  6371.0 * 2 * P.asin (P.sqrt a)

/-- One pass of the Newton loop of `geo.felt_radius_km`, with explicit fuel
(the Python loop runs `for _ in range(20)`). The safeguard replaces an update
that would drive `r` non-positive by `r / 2`; the loop breaks, keeping the
current iterate, once the update moves less than `0.01`. -/
def feltNewton (P : Prims) (c : ℚ) : ℕ → ℚ → ℚ
  | 0, r => r
  | fuel + 1, r =>
    let ln_r := P.log r
    let f := c - 1.26 * ln_r - 0.0012 * r
    let fp := -1.26 / r - 0.0012
    let step := f / fp
    let rStep := r - step
    let rNew := if rStep ≤ 0 then r / 2 else rStep
    if |rNew - r| < 0.01 then r else feltNewton P c fuel rNew

/-- Surface radius (km) where shaking reaches MMI V (`geo.felt_radius_km`). -/
def felt_radius_km (P : Prims) (magnitude depth_km : ℚ) : ℚ :=
  let c := 3.70 + 1.17 * magnitude - 5.0
  if c ≤ 0 then 5.0
  else
    let r_hypo := feltNewton P c 20 50.0
    let depth := max depth_km 0.0
    if r_hypo ≤ depth then 5.0
    else max (round1 (P.sqrt (r_hypo ^ 2 - depth ^ 2))) 5.0

/-! ShakeMap grid and interpolation, embedded from
`src/src/seismic_risk/fetchers/shakemap.py`. -/

/-- Parsed ShakeMap grid (`shakemap.ShakeMapGrid`). The two row-major arrays
are embedded as total functions from (row, column) indices; the code only
reads them at indices produced by `interpolate_pga`. -/
structure ShakeMapGrid where
  event_id : String
  lon_min : ℚ
  lat_min : ℚ
  lon_max : ℚ
  lat_max : ℚ
  lon_spacing : ℚ
  lat_spacing : ℚ
  nlon : ℕ
  nlat : ℕ
  pga : ℤ → ℤ → ℚ
  mmi : ℤ → ℤ → ℚ

/-- Bilinear interpolation of PGA and MMI at (lat, lon)
(`shakemap.interpolate_pga`). Python's `int()` truncation coincides with the
floor here because the clamped fractional indices are non-negative. -/
def interpolate_pga (grid : ShakeMapGrid) (lat lon : ℚ) : Option (ℚ × ℚ) :=
  if lon < grid.lon_min ∨ lon > grid.lon_max then none
  else if lat < grid.lat_min ∨ lat > grid.lat_max then none
  else
    let col := (lon - grid.lon_min) / grid.lon_spacing
    let row := (grid.lat_max - lat) / grid.lat_spacing
    let col := max 0.0 (min col ((grid.nlon : ℚ) - 1))
    let row := max 0.0 (min row ((grid.nlat : ℚ) - 1))
    let c0 : ℤ := ⌊col⌋
    let r0 : ℤ := ⌊row⌋
    let c1 : ℤ := min (c0 + 1) ((grid.nlon : ℤ) - 1)
    let r1 : ℤ := min (r0 + 1) ((grid.nlat : ℤ) - 1)
    let dc : ℚ := col - (c0 : ℚ)
    let dr : ℚ := row - (r0 : ℚ)
    let pga :=
      grid.pga r0 c0 * (1 - dc) * (1 - dr)
      + grid.pga r0 c1 * dc * (1 - dr)
      + grid.pga r1 c0 * (1 - dc) * dr
      + grid.pga r1 c1 * dc * dr
    let mmi :=
      grid.mmi r0 c0 * (1 - dc) * (1 - dr)
      + grid.mmi r0 c1 * dc * (1 - dr)
      + grid.mmi r1 c0 * (1 - dc) * dr
      + grid.mmi r1 c1 * dc * dr
    some (pga, mmi)

/-! Scoring engine, embedded from `src/src/seismic_risk/scoring.py`. -/

/-- Distance-weighted exposure contribution (`scoring._heuristic_contribution`). -/
def heuristic_contribution (P : Prims) (magnitude distance_km depth_km : ℚ) : ℚ :=
  let r := P.sqrt (distance_km ^ 2 + depth_km ^ 2)
  let energy := P.powR 10 (0.5 * magnitude)
  energy / P.powR (r + 1) 1.2 * P.exp (-0.003 * r)

/-- Per-pair contribution and optional ShakeMap values, the body of the inner
loop of `scoring.find_exposed_airports`: grid PGA in percent g when a grid for
the quake exists and the airport lies inside its bounds, the heuristic formula
otherwise. The optional grid dictionary is an association list; Python's
`shakemap_grids and eq.id in shakemap_grids` guard is the `find?` lookup
(an empty dictionary is falsy, and `find?` on the empty list is `none`). -/
def quakeContribution (P : Prims) (grids : Option (List (String × ShakeMapGrid)))
    (ap : Airport) (q : Earthquake) (d : ℚ) : ℚ × Option ℚ × Option ℚ :=
  match grids with
  | none => (heuristic_contribution P q.magnitude d q.depth_km, none, none)
  | some gs =>
    match gs.find? (fun g => g.1 == q.id) with
    | none => (heuristic_contribution P q.magnitude d q.depth_km, none, none)
    | some pr =>
      match interpolate_pga pr.2 ap.latitude ap.longitude with
      | none => (heuristic_contribution P q.magnitude d q.depth_km, none, none)
      | some (pga_pctg, mmi_interp) =>
        (pga_pctg, some (round6 (pga_pctg / 100)), some (round1 mmi_interp))

/-- The `NearbyQuake` record appended for a qualifying pair
(`scoring.find_exposed_airports`, loop body). -/
def mkNearbyQuake (P : Prims) (grids : Option (List (String × ShakeMapGrid)))
    (ap : Airport) (q : Earthquake) (d : ℚ) : NearbyQuake :=
  let c := quakeContribution P grids ap q d
  { earthquake_id := q.id
    magnitude := q.magnitude
    latitude := q.latitude
    longitude := q.longitude
    depth_km := q.depth_km
    time_ms := q.time_ms
    place := q.place
    distance_km := round1 d
    exposure_contribution := round2 c.1
    pga_g := c.2.1
    mmi := c.2.2 }

/-- The earthquakes within `max_distance_km` of an airport, paired with their
raw epicentral distances, in input order (the qualifying iterations of the
inner loop of `scoring.find_exposed_airports`). -/
def qualifying (P : Prims) (max_distance_km : ℚ) (ap : Airport)
    (earthquakes : List Earthquake) : List (Earthquake × ℚ) :=
  (earthquakes.map
    (fun q => (q, haversine P ap.latitude ap.longitude q.latitude q.longitude))).filter
    (fun pq => pq.2 ≤ max_distance_km)

/-- Raw (pre-rounding) per-airport exposure score: the final value of the
`score` accumulator of `scoring.find_exposed_airports` for one airport. -/
def rawScore (P : Prims) (grids : Option (List (String × ShakeMapGrid)))
    (max_distance_km : ℚ) (earthquakes : List Earthquake) (ap : Airport) : ℚ :=
  ((qualifying P max_distance_km ap earthquakes).map
    (fun pq => (quakeContribution P grids ap pq.1 pq.2).1)).sum

/-- One airport's iteration of the outer loop of
`scoring.find_exposed_airports`: `none` when no earthquake qualifies (the
airport is then not appended), otherwise the `ExposedAirport` record.
`List.insertionSort` is a stable sort, hence produces the same list as
Python's stable `list.sort(key=...)`. -/
def processAirport (P : Prims) (grids : Option (List (String × ShakeMapGrid)))
    (max_distance_km : ℚ) (earthquakes : List Earthquake) (ap : Airport) :
    Option ExposedAirport :=
  match qualifying P max_distance_km ap earthquakes with
  | [] => none
  | q0 :: rest =>
    let nearby := (q0 :: rest).map (fun pq => mkNearbyQuake P grids ap pq.1 pq.2)
    let score := rawScore P grids max_distance_km earthquakes ap
    let best := rest.foldl (fun b pq => min b pq.2) q0.2
    some
      { name := ap.name
        iata_code := ap.iata_code
        latitude := round6 ap.latitude
        longitude := round6 ap.longitude
        municipality := ap.municipality
        closest_quake_distance_km := round1 best
        nearby_quakes := nearby.insertionSort (fun a b => a.distance_km ≤ b.distance_km)
        exposure_score := round2 score }

/-- Airports within the exposure radius of at least one earthquake
(`scoring.find_exposed_airports`). -/
def find_exposed_airports (P : Prims) (airports : List Airport)
    (earthquakes : List Earthquake) (max_distance_km : ℚ := 200.0)
    (shakemap_grids : Option (List (String × ShakeMapGrid)) := none) :
    List ExposedAirport :=
  airports.filterMap (processAirport P shakemap_grids max_distance_km earthquakes)

/-- Sum of pre-computed per-airport exposure scores
(`scoring.sum_airport_scores`). -/
def sum_airport_scores (exposed : List ExposedAirport) : ℚ :=
  round2 ((exposed.map (fun ap => ap.exposure_score)).sum)

/-- Distance-weighted exposure score recomputed from scratch
(`scoring.calculate_exposure_score`); the nested accumulation over airport ×
earthquake pairs is written as a sum of per-airport sums. -/
def calculate_exposure_score (P : Prims) (airports : List Airport)
    (earthquakes : List Earthquake) (max_distance_km : ℚ := 200.0) : ℚ :=
  round2 ((airports.map
    (fun ap => ((qualifying P max_distance_km ap earthquakes).map
      (fun pq => heuristic_contribution P pq.1.magnitude pq.2 pq.1.depth_km)).sum)).sum)

/-- Legacy Seismic Hub Risk Score (`scoring.calculate_legacy_score`);
the `ValueError` raise is embedded as `Except.error`. -/
def calculate_legacy_score (earthquake_count : ℤ) (avg_magnitude : ℚ)
    (exposed_airport_count : ℤ) : Except String ℚ :=
  if exposed_airport_count = 0 then
    .error "Cannot compute risk score with zero exposed airports"
  else
    .ok (round2 ((earthquake_count * avg_magnitude) / exposed_airport_count))

/-- Dispatch over the scoring method (`scoring.calculate_risk_score`);
optional Python arguments are `Option`s and `ValueError`s are `Except.error`. -/
def calculate_risk_score (P : Prims) (airports : List Airport)
    (earthquakes : List Earthquake) (max_distance_km : ℚ) (method : String)
    (earthquake_count : Option ℤ := none) (avg_magnitude : Option ℚ := none)
    (exposed_airport_count : Option ℤ := none)
    (exposed_airports : Option (List ExposedAirport) := none) : Except String ℚ :=
  if method = "shakemap" ∨ method = "exposure" ∨ method = "heuristic" then
    match exposed_airports with
    | some ea => .ok (sum_airport_scores ea)
    | none => .ok (calculate_exposure_score P airports earthquakes max_distance_km)
  else if method = "legacy" then
    match earthquake_count, avg_magnitude, exposed_airport_count with
    | some ec, some avg, some cnt => calculate_legacy_score ec avg cnt
    | _, _, _ =>
      .error "Legacy method requires earthquake_count, avg_magnitude, and exposed_airport_count"
  else
    .error ("Unknown scoring method: " ++ method)

/-! Calendar-date derivation.

Modelled from the spec: `scoring.compute_seismic_stats` derives the strongest
earthquake's date with Python's stdlib
`datetime.fromtimestamp(time_ms / 1000, tz=timezone.utc).strftime("%Y-%m-%d")`,
which is not part of this repository; the spec describes it as "its calendar
date (derived from epoch milliseconds, UTC, YYYY-MM-DD)". The embedding
computes the day number since the Unix epoch and converts it to a proleptic
Gregorian civil date. -/

/-- Modelled from the spec: civil (year, month, day) from a count of days
since 1970-01-01, proleptic Gregorian calendar (Howard Hinnant's algorithm;
all intermediate quantities are non-negative, so Lean's truncating integer
division matches the reference). -/
def civilFromDays (z0 : ℤ) : ℤ × ℤ × ℤ :=
  let z := z0 + 719468
  let era := (if 0 ≤ z then z else z - 146096) / 146097
  let doe := z - era * 146097
  let yoe := (doe - doe / 1460 + doe / 36524 - doe / 146096) / 365
  let y := yoe + era * 400
  let doy := doe - (365 * yoe + yoe / 4 - yoe / 100)
  let mp := (5 * doy + 2) / 153
  let d := doy - (153 * mp + 2) / 5 + 1
  let m := if mp < 10 then mp + 3 else mp - 9
  (if m ≤ 2 then y + 1 else y, m, d)

/-- Zero-pad the decimal representation of a non-negative integer to `w`
digits. -/
def padZ (w : ℕ) (n : ℤ) : String :=
  let s := toString n
  if s.length < w then String.mk (List.replicate (w - s.length) '0') ++ s else s

/-- Modelled from the spec: UTC calendar date in `YYYY-MM-DD` form from an
epoch-millisecond timestamp. -/
def epochMsToDateString (ms : ℤ) : String :=
  let days := ⌊(ms : ℚ) / 1000 / 86400⌋
  let ymd := civilFromDays days
  padZ 4 ymd.1 ++ "-" ++ padZ 2 ymd.2.1 ++ "-" ++ padZ 2 ymd.2.2

/-- Python's `max(xs, key=f)` for a non-empty list: the fold updates only on a
strictly greater key, so the first maximal element wins. -/
def pyMaxBy (f : α → ℚ) (x : α) (xs : List α) : α :=
  xs.foldl (fun b y => if f y > f b then y else b) x

/-- Average magnitude and strongest-earthquake summary
(`scoring.compute_seismic_stats`); the `ValueError` on an empty list is
`Except.error`. -/
def compute_seismic_stats (earthquakes : List Earthquake) :
    Except String (ℚ × StrongestEarthquake) :=
  match earthquakes with
  | [] => .error "Cannot compute stats for empty earthquake list"
  | e0 :: rest =>
    let n : ℚ := (earthquakes.length : ℚ)
    let avg_mag := round2 (((e0 :: rest).map (fun q => q.magnitude)).sum / n)
    let strongest := pyMaxBy (fun q => q.magnitude) e0 rest
    let s_date := epochMsToDateString strongest.time_ms
    .ok (avg_mag,
      { magnitude := strongest.magnitude
        date := s_date
        depth_km := round1 strongest.depth_km
        latitude := round4 strongest.latitude
        longitude := round4 strongest.longitude })

/-! Historical snapshots and trend computation, embedded from
`src/src/seismic_risk/history.py`. Python dictionaries are embedded as ordered
association lists with insert-or-overwrite (`dictInsert`) and first-match
lookup (`dictGet?`); since `dictInsert` never duplicates a key, this has
exactly Python's insertion-ordered dictionary semantics. -/

/-- Compact daily metrics for one airport (`history.AirportSnapshot`). -/
structure AirportSnapshot where
  iata_code : String
  name : String
  exposure_score : ℚ
  nearby_quake_count : ℕ
  closest_quake_km : ℚ
  max_pga_g : Option ℚ := none
deriving DecidableEq

/-- Compact daily metrics for one country (`history.CountrySnapshot`). -/
structure CountrySnapshot where
  iso_alpha3 : String
  country : String
  score : ℚ
  earthquake_count : ℕ
  exposed_airport_count : ℕ
  avg_magnitude : ℚ
  airports : List AirportSnapshot := []
deriving DecidableEq

/-- One day's snapshot (`history.DailySnapshot`). -/
structure DailySnapshot where
  date : String
  scoring_method : String
  countries : List CountrySnapshot
deriving DecidableEq

/-- Computed country trend (`history.CountryTrend`). -/
structure CountryTrend where
  iso_alpha3 : String
  country : String
  scores : List ℚ
  dates : List String
  current_score : ℚ
  previous_score : Option ℚ
  score_delta : ℚ
  trend_direction : String
  is_new : Bool
  is_gone : Bool
  days_tracked : ℕ
deriving DecidableEq

/-- Computed airport trend (`history.AirportTrend`). -/
structure AirportTrend where
  iata_code : String
  name : String
  country_iso3 : String
  scores : List ℚ
  dates : List String
  current_score : ℚ
  previous_score : Option ℚ
  score_delta : ℚ
  trend_direction : String
  is_new : Bool
  is_gone : Bool
  days_tracked : ℕ
  max_pga_g : Option ℚ := none
deriving DecidableEq

/-- Aggregate trends (`history.TrendSummary`). -/
structure TrendSummary where
  date : String
  history_days : ℕ
  history_start : String
  country_trends : List (String × CountryTrend)
  airport_trends : List (String × AirportTrend)
  new_countries : List String
  gone_countries : List String
deriving DecidableEq

/-- Country risk result (`models.CountryRiskResult`), restricted to the fields
that `history.compute_trends` reads. -/
structure CountryRiskResult where
  country : String
  iso_alpha2 : String
  iso_alpha3 : String
  earthquake_count : ℕ := 0
  avg_magnitude : ℚ := 0
  exposed_airports : List ExposedAirport := []
  seismic_hub_risk_score : ℚ := 0
deriving DecidableEq

/-- Python `d[k] = v` on an insertion-ordered dictionary: overwrite in place
if the key exists, append otherwise. -/
def dictInsert (k : String) (v : α) : List (String × α) → List (String × α)
  | [] => [(k, v)]
  | (k1, v1) :: rest =>
    if k1 = k then (k, v) :: rest else (k1, v1) :: dictInsert k v rest

/-- Python `d.get(k)` / `k in d`. -/
def dictGet? (k : String) (m : List (String × α)) : Option α :=
  (m.find? (fun p => p.1 == k)).map (fun p => p.2)

/-- Python `d.setdefault(k, []).append(v)`. -/
def setdefaultAppend (k : String) (v : α) :
    List (String × List α) → List (String × List α)
  | [] => [(k, [v])]
  | (k1, vs) :: rest =>
    if k1 = k then (k1, vs ++ [v]) :: rest else (k1, vs) :: setdefaultAppend k v rest

/-- Minimum permitted change before a trend counts as up/down
(`history._DELTA_THRESHOLD`). -/
def DELTA_THRESHOLD : ℚ := 0.5

/-- Python `max(pga_vals)` guarded by non-emptiness: `none` on the empty
list. -/
def listMax? : List ℚ → Option ℚ
  | [] => none
  | x :: xs => some (xs.foldl max x)

/-- Maximum PGA of a nearby-quake list (`history._max_pga`). -/
def maxPga (nearby_quakes : List NearbyQuake) : Option ℚ :=
  (listMax? (nearby_quakes.filterMap (fun nq => nq.pga_g))).map round4

/-- The country trend built for one entry of `current_results`
(`history.compute_trends`, first loop). -/
def mkCountryTrend (trajectories : List (String × List (String × ℚ)))
    (previous_map : List (String × CountrySnapshot)) (today : String)
    (r : CountryRiskResult) : CountryTrend :=
  let current_score := round2 r.seismic_hub_risk_score
  let prev := dictGet? r.iso_alpha3 previous_map
  let traj := (dictGet? r.iso_alpha3 trajectories).getD []
  let dates := traj.map (fun t => t.1) ++ [today]
  let scores := traj.map (fun t => t.2) ++ [current_score]
  let previous_score := prev.map (fun cs => cs.score)
  let delta := match previous_score with
    | some p => current_score - p
    | none => 0.0
  let direction := match prev with
    | none => "new"
    | some _ =>
      if delta > DELTA_THRESHOLD then "up"
      else if delta < -DELTA_THRESHOLD then "down"
      else "stable"
  { iso_alpha3 := r.iso_alpha3
    country := r.country
    scores := scores
    dates := dates
    current_score := current_score
    previous_score := previous_score
    score_delta := round2 delta
    trend_direction := direction
    is_new := prev.isNone
    is_gone := false
    days_tracked := scores.length }

/-- The country trend built for a country present in the most recent snapshot
but absent from current results (`history.compute_trends`, second loop). -/
def mkGoneCountryTrend (trajectories : List (String × List (String × ℚ)))
    (iso3 : String) (prev_cs : CountrySnapshot) : CountryTrend :=
  let traj := (dictGet? iso3 trajectories).getD []
  { iso_alpha3 := iso3
    country := prev_cs.country
    scores := traj.map (fun t => t.2)
    dates := traj.map (fun t => t.1)
    current_score := 0.0
    previous_score := some prev_cs.score
    score_delta := round2 (-prev_cs.score)
    trend_direction := "gone"
    is_new := false
    is_gone := true
    days_tracked := traj.length }

/-- The airport trend built for one exposed airport of one entry of
`current_results` (`history.compute_trends`, airport loop). The airport
trajectory entries are (date, score, country iso3, name) tuples. -/
def mkAirportTrend (airport_trajectories : List (String × List (String × ℚ × String × String)))
    (previous_airport_map : List (String × AirportSnapshot)) (today : String)
    (iso3 : String) (exposed_ap : ExposedAirport) : AirportTrend :=
  let iata := exposed_ap.iata_code
  let current_ap_score := round2 exposed_ap.exposure_score
  let prev_ap := dictGet? iata previous_airport_map
  let ap_traj := (dictGet? iata airport_trajectories).getD []
  let ap_dates := ap_traj.map (fun t => t.1) ++ [today]
  let ap_scores := ap_traj.map (fun t => t.2.1) ++ [current_ap_score]
  let prev_ap_score := prev_ap.map (fun snap => snap.exposure_score)
  let ap_delta := match prev_ap_score with
    | some p => current_ap_score - p
    | none => 0.0
  let ap_direction := match prev_ap with
    | none => "new"
    | some _ =>
      if ap_delta > DELTA_THRESHOLD then "up"
      else if ap_delta < -DELTA_THRESHOLD then "down"
      else "stable"
  { iata_code := iata
    name := exposed_ap.name
    country_iso3 := iso3
    scores := ap_scores
    dates := ap_dates
    current_score := current_ap_score
    previous_score := prev_ap_score
    score_delta := round2 ap_delta
    trend_direction := ap_direction
    is_new := prev_ap.isNone
    is_gone := false
    days_tracked := ap_scores.length
    max_pga_g := maxPga exposed_ap.nearby_quakes }

/-- The airport trend built for an airport present in the most recent snapshot
but absent from current results (`history.compute_trends`, gone-airport
loop). -/
def mkGoneAirportTrend (airport_trajectories : List (String × List (String × ℚ × String × String)))
    (previous_airport_country : List (String × String)) (iata : String)
    (prev_ap : AirportSnapshot) : AirportTrend :=
  let ap_traj := (dictGet? iata airport_trajectories).getD []
  { iata_code := iata
    name := prev_ap.name
    country_iso3 := (dictGet? iata previous_airport_country).getD ""
    scores := ap_traj.map (fun t => t.2.1)
    dates := ap_traj.map (fun t => t.1)
    current_score := 0.0
    previous_score := some prev_ap.exposure_score
    score_delta := round2 (-prev_ap.exposure_score)
    trend_direction := "gone"
    is_new := false
    is_gone := true
    days_tracked := ap_traj.length }

/-- The `trajectories` dictionary of `history.compute_trends`:
`{iso_alpha3: [(date, score), ...]}` accumulated over the history. -/
def trajectoriesFold (history : List DailySnapshot) :
    List (String × List (String × ℚ)) :=
  history.foldl (fun m snap =>
    snap.countries.foldl (fun m cs =>
      setdefaultAppend cs.iso_alpha3 (snap.date, cs.score) m) m) []

/-- The `airport_trajectories` dictionary of `history.compute_trends`:
`{iata_code: [(date, score, iso_alpha3, name), ...]}`. -/
def airportTrajectoriesFold (history : List DailySnapshot) :
    List (String × List (String × ℚ × String × String)) :=
  history.foldl (fun m snap =>
    snap.countries.foldl (fun m cs =>
      cs.airports.foldl (fun m ap =>
        setdefaultAppend ap.iata_code
          (snap.date, ap.exposure_score, cs.iso_alpha3, ap.name) m) m) m) []

/-- The `previous_map` dictionary of `history.compute_trends`. -/
def previousMapOf (previous_snap : DailySnapshot) : List (String × CountrySnapshot) :=
  previous_snap.countries.foldl (fun m cs => dictInsert cs.iso_alpha3 cs m) []

/-- The `previous_airport_map` dictionary of `history.compute_trends`. -/
def previousAirportMapOf (previous_snap : DailySnapshot) :
    List (String × AirportSnapshot) :=
  previous_snap.countries.foldl (fun m cs =>
    cs.airports.foldl (fun m ap => dictInsert ap.iata_code ap m) m) []

/-- The `previous_airport_country` dictionary of `history.compute_trends`. -/
def previousAirportCountryOf (previous_snap : DailySnapshot) :
    List (String × String) :=
  previous_snap.countries.foldl (fun m cs =>
    cs.airports.foldl (fun m ap => dictInsert ap.iata_code cs.iso_alpha3 m) m) []

/-- The `current_map` dictionary of `history.compute_trends`. -/
def currentMapOf (current_results : List CountryRiskResult) :
    List (String × CountryRiskResult) :=
  current_results.foldl (fun m r => dictInsert r.iso_alpha3 r m) []

/-- The `current_airport_iatas` set of `history.compute_trends` (a list whose
membership is all that is consulted). -/
def currentAirportIatas (current_results : List CountryRiskResult) : List String :=
  (current_results.map
    (fun r => r.exposed_airports.map (fun exposed_ap => exposed_ap.iata_code))).flatten

/-- The `country_trends` dictionary together with the `gone_countries` list
of `history.compute_trends`: the first loop fills the dictionary from
`current_results`, the second adds a gone entry (and a `gone_countries`
element) for every country of the most recent snapshot absent from the
current results. -/
def countryTrendsAll (today : String) (history : List DailySnapshot)
    (current_results : List CountryRiskResult) (previous_snap : DailySnapshot) :
    List (String × CountryTrend) × List String :=
  (previousMapOf previous_snap).foldl
    (fun (acc : List (String × CountryTrend) × List String) p =>
      if (dictGet? p.1 (currentMapOf current_results)).isNone then
        (dictInsert p.1
          (mkGoneCountryTrend (trajectoriesFold history) p.1 p.2) acc.1,
         acc.2 ++ [p.1])
      else acc)
    (current_results.foldl (fun m r =>
      dictInsert r.iso_alpha3
        (mkCountryTrend (trajectoriesFold history) (previousMapOf previous_snap) today r) m) [],
     [])

/-- The `airport_trends` dictionary of `history.compute_trends`: filled from
the exposed airports of `current_results`, then extended with a gone entry
for every airport of the most recent snapshot absent from the current
results. -/
def airportTrendsAll (today : String) (history : List DailySnapshot)
    (current_results : List CountryRiskResult) (previous_snap : DailySnapshot) :
    List (String × AirportTrend) :=
  (previousAirportMapOf previous_snap).foldl (fun m p =>
    if (currentAirportIatas current_results).contains p.1 then m
    else dictInsert p.1
      (mkGoneAirportTrend (airportTrajectoriesFold history)
        (previousAirportCountryOf previous_snap) p.1 p.2) m)
    (current_results.foldl (fun m r =>
      r.exposed_airports.foldl (fun m exposed_ap =>
        dictInsert exposed_ap.iata_code
          (mkAirportTrend (airportTrajectoriesFold history)
            (previousAirportMapOf previous_snap) today r.iso_alpha3 exposed_ap) m) m) [])

/-- Body of `history.compute_trends` once `history` is known to be non-empty,
with `previous_snap` the most recent snapshot (`history[-1]`). -/
def computeSummary (today : String) (history : List DailySnapshot)
    (current_results : List CountryRiskResult) (previous_snap : DailySnapshot) :
    TrendSummary :=
  { date := today
    history_days := history.length
    history_start := ((history.head?).map (fun s => s.date)).getD today
    country_trends := (countryTrendsAll today history current_results previous_snap).1
    airport_trends := airportTrendsAll today history current_results previous_snap
    new_countries :=
      ((countryTrendsAll today history current_results previous_snap).1.filter
        (fun p => p.2.is_new)).map (fun p => p.1)
    gone_countries := (countryTrendsAll today history current_results previous_snap).2 }

/-- Trend computation (`history.compute_trends`). Python reads "today" from
the wall clock (`datetime.now(tz=timezone.utc).date().isoformat()`); the
embedding takes it as the explicit first parameter. The `scoring_method`
argument is accepted, as in the source, but not consulted. Returns `none`
exactly when `history` is empty. -/
def compute_trends (today : String) (history : List DailySnapshot)
    (current_results : List CountryRiskResult) (scoring_method : String) :
    Option TrendSummary :=
  let _ := scoring_method
  match history.getLast? with
  | none => none
  | some previous_snap => some (computeSummary today history current_results previous_snap)

/-! Specification-side definitions: these are written from the words of the
specification (not from the code) and are compared with the embedded code in
the refinement theorems below. -/

/-- Modelled from the spec: the bilinear interpolation value for an in-bounds
point, from fractional column `(lon - lon_min) / lon_spacing` and fractional
row `(lat_max - lat) / lat_spacing`, both clamped to `[0, n - 1]`, floor
corner indices with neighbour indices capped at `nlat - 1` and `nlon - 1`,
and weights `(1-dc)(1-dr), dc(1-dr), (1-dc)dr, dc*dr`. -/
def interpolateSpec (grid : ShakeMapGrid) (lat lon : ℚ) : ℚ × ℚ :=
  let col := max 0 (min ((lon - grid.lon_min) / grid.lon_spacing) ((grid.nlon : ℚ) - 1))
  let row := max 0 (min ((grid.lat_max - lat) / grid.lat_spacing) ((grid.nlat : ℚ) - 1))
  let c0 : ℤ := ⌊col⌋
  let r0 : ℤ := ⌊row⌋
  let c1 : ℤ := min (c0 + 1) ((grid.nlon : ℤ) - 1)
  let r1 : ℤ := min (r0 + 1) ((grid.nlat : ℤ) - 1)
  let dc : ℚ := col - (c0 : ℚ)
  let dr : ℚ := row - (r0 : ℚ)
  (grid.pga r0 c0 * (1 - dc) * (1 - dr) + grid.pga r0 c1 * dc * (1 - dr)
     + grid.pga r1 c0 * (1 - dc) * dr + grid.pga r1 c1 * dc * dr,
   grid.mmi r0 c0 * (1 - dc) * (1 - dr) + grid.mmi r0 c1 * dc * (1 - dr)
     + grid.mmi r1 c0 * (1 - dc) * dr + grid.mmi r1 c1 * dc * dr)

/-- Modelled from the spec: Newton's method for the felt-radius equation
`3.70 + 1.17 M - 1.26 ln R - 0.0012 R = 5.0`, with at most the given number
of iterations, convergence tolerance 0.01 km, and the safeguard that an
update which would drive `R` non-positive is replaced by the half-sized step
from `R` to `R / 2`; on convergence the current iterate is kept. -/
def feltNewtonSpec (P : Prims) (c : ℚ) : ℕ → ℚ → ℚ
  | 0, r => r
  | fuel + 1, r =>
    let f := c - 1.26 * P.log r - 0.0012 * r
    let step := f / (-1.26 / r - 0.0012)
    let next := if r - step ≤ 0 then r / 2 else r - step
    if |next - r| < 0.01 then r else feltNewtonSpec P c fuel next

/-- Modelled from the spec: the felt-radius algorithm as the claim words it.
If `c = 3.70 + 1.17 M - 5.0 ≤ 0` the 5.0 km floor is returned directly;
otherwise the intensity equation is solved by Newton's method with initial
guess 50 km and at most 20 iterations, depth is clamped to be non-negative,
the hypocentral radius is converted to a surface radius
`sqrt(R^2 - depth^2)` (the 5.0 km floor already answers when the root does
not exceed the depth), and the result never falls below 5.0 km. -/
def felt_radius_spec (P : Prims) (magnitude depth_km : ℚ) : ℚ :=
  let c := 3.70 + 1.17 * magnitude - 5.0
  if c ≤ 0 then 5.0
  else
    let rHypo := feltNewtonSpec P c 20 50.0
    let depth := max depth_km 0.0
    if rHypo ≤ depth then 5.0
    else max (round1 (P.sqrt (rHypo ^ 2 - depth ^ 2))) 5.0

/-- Modelled from the spec: the earthquake of maximum key, ties broken by
list order (the first maximal element). -/
def firstMaxBy (f : α → ℚ) : List α → Option α
  | [] => none
  | x :: xs =>
    match firstMaxBy f xs with
    | none => some x
    | some y => some (if f y > f x then y else x)

/-- Last element of a list whose key is `k`: the value Python's
insertion-ordered dictionary holds at `k` after inserting every element of
the list under its key. -/
def lastWithKey (key : β → String) (k : String) (l : List β) : Option β :=
  l.reverse.find? (fun x => key x == k)

/-- Chronological (date, score) trajectory of a country across a history, in
snapshot order: the spec's "all history occurrences" score series. -/
def countryTrajectory (history : List DailySnapshot) (iso3 : String) :
    List (String × ℚ) :=
  history.flatMap (fun snap =>
    (snap.countries.filter (fun cs => cs.iso_alpha3 == iso3)).map
      (fun cs => (snap.date, cs.score)))

/-- Chronological (date, score) trajectory of an airport across a history. -/
def airportTrajectory (history : List DailySnapshot) (iata : String) :
    List (String × ℚ) :=
  history.flatMap (fun snap =>
    snap.countries.flatMap (fun cs =>
      (cs.airports.filter (fun a => a.iata_code == iata)).map
        (fun a => (snap.date, a.exposure_score))))

/-- The country's entry in the single most recent history snapshot, if any
(with Python dictionary semantics: the last occurrence of the key wins). -/
def prevCountrySnapshot (history : List DailySnapshot) (iso3 : String) :
    Option CountrySnapshot :=
  history.getLast?.bind
    (fun snap => lastWithKey (fun cs => cs.iso_alpha3) iso3 snap.countries)

/-- The airport's entry in the single most recent history snapshot, if any. -/
def prevAirportSnapshot (history : List DailySnapshot) (iata : String) :
    Option AirportSnapshot :=
  history.getLast?.bind
    (fun snap => lastWithKey (fun a => a.iata_code) iata
      (snap.countries.flatMap (fun cs => cs.airports)))

/-! Concrete scenario data used by the counterexamples and witnesses below.
Every transcendental primitive is evaluated only at arguments where `qPrims`
agrees with the mathematical function (see `qPrims`). -/

/-- An airport at the origin. -/
def airportA : Airport := ⟨"Alpha", "AAA", 0, 0, "Alphaville", "XX", "large_airport"⟩

/-- A second airport at the origin. -/
def airportB : Airport := ⟨"Beta", "BBB", 0, 0, "Betaville", "XX", "large_airport"⟩

/-- A magnitude −6 earthquake at the origin with depth 0: its heuristic
contribution is exactly `10 ^ (0.5 * -6) = 1/1000`. -/
def quakeTiny : Earthquake := ⟨"q1", -6, 0, 0, 0, 0, "Origin", "", false⟩

/-- The 5 × 5 grid of the spec's interpolation scenario: 139-140°E, 35-36°N,
spacing 0.25°, centre cell PGA 15.0 and MMI 7.0. -/
def gridScenario : ShakeMapGrid :=
  { event_id := "ev"
    lon_min := 139
    lat_min := 35
    lon_max := 140
    lat_max := 36
    lon_spacing := 0.25
    lat_spacing := 0.25
    nlon := 5
    nlat := 5
    pga := fun r c => if r = 2 ∧ c = 2 then 15.0 else 0
    mmi := fun r c => if r = 2 ∧ c = 2 then 7.0 else 0 }

/-- A 1 × 1 grid around the origin whose single cell holds PGA 0.0049 %g. -/
def gridFlat : ShakeMapGrid :=
  { event_id := "e"
    lon_min := -1
    lat_min := -1
    lon_max := 1
    lat_max := 1
    lon_spacing := 1
    lat_spacing := 1
    nlon := 1
    nlat := 1
    pga := fun _ _ => 0.0049
    mmi := fun _ _ => 5.0 }

/-- A magnitude 5 earthquake at the origin with a given id. -/
def quakeAt (i : String) : Earthquake := ⟨i, 5, 0, 0, 0, 0, "Origin", "", false⟩

/-- Six earthquakes, each with a ShakeMap grid whose interpolated PGA at the
airport is 0.0049 %g. -/
def quakesSix : List Earthquake :=
  [quakeAt "e1", quakeAt "e2", quakeAt "e3", quakeAt "e4", quakeAt "e5", quakeAt "e6"]

/-- The grid dictionary mapping each of the six earthquakes to the flat
grid. -/
def gridsSix : List (String × ShakeMapGrid) :=
  [("e1", gridFlat), ("e2", gridFlat), ("e3", gridFlat),
   ("e4", gridFlat), ("e5", gridFlat), ("e6", gridFlat)]

/-- History with a single snapshot holding country JPN at score 30.0. -/
def histUp : List DailySnapshot :=
  [⟨"2026-10-11", "exposure", [⟨"JPN", "Japan", 30.0, 3, 1, 4.5, []⟩]⟩]

/-- The current result for JPN at score 42.85 in the trend scenario. -/
def resultUp : CountryRiskResult :=
  { country := "Japan", iso_alpha2 := "JP", iso_alpha3 := "JPN",
    seismic_hub_risk_score := 42.85 }

/-- Current results with country JPN at score 42.85. -/
def curUp : List CountryRiskResult := [resultUp]

/-- The country trend produced for JPN in the `histUp`/`curUp` scenario. -/
def trendJPNUp : CountryTrend :=
  { iso_alpha3 := "JPN", country := "Japan", scores := [30.0, 42.85]
    dates := ["2026-10-11", "2026-10-12"], current_score := 42.85
    previous_score := some 30.0, score_delta := 12.85, trend_direction := "up"
    is_new := false, is_gone := false, days_tracked := 2 }

/-- The full trend summary of the `histUp`/`curUp` scenario. -/
def summaryUp : TrendSummary :=
  { date := "2026-10-12", history_days := 1, history_start := "2026-10-11"
    country_trends := [("JPN", trendJPNUp)], airport_trends := []
    new_countries := [], gone_countries := [] }

/-- History with one snapshot holding countries JPN (with airport HND at
exposure score 5.0) and USA. -/
def histGone : List DailySnapshot :=
  [⟨"2026-10-11", "exposure",
    [⟨"JPN", "Japan", 10.0, 3, 1, 4.5, [⟨"HND", "Haneda", 5.0, 2, 30.0, none⟩]⟩,
     ⟨"USA", "United States", 7.0, 2, 1, 4.0, []⟩]⟩]

/-- Current results holding only JPN, with no exposed airports: USA and HND
both disappeared. -/
def curGone : List CountryRiskResult :=
  [{ country := "Japan", iso_alpha2 := "JP", iso_alpha3 := "JPN",
     seismic_hub_risk_score := 10.0 }]

/-- The USA snapshot entry of `histGone`. -/
def csUSA : CountrySnapshot := ⟨"USA", "United States", 7.0, 2, 1, 4.0, []⟩

/-- The JPN snapshot entry of `histGone`. -/
def csJPN : CountrySnapshot :=
  ⟨"JPN", "Japan", 10.0, 3, 1, 4.5, [⟨"HND", "Haneda", 5.0, 2, 30.0, none⟩]⟩

/-- The HND airport snapshot entry of `histGone`. -/
def apHND : AirportSnapshot := ⟨"HND", "Haneda", 5.0, 2, 30.0, none⟩

/-- The country trend produced for JPN in the `histGone`/`curGone`
scenario. -/
def trendJPNStable : CountryTrend :=
  { iso_alpha3 := "JPN", country := "Japan", scores := [10.0, 10.0]
    dates := ["2026-10-11", "2026-10-12"], current_score := 10.0
    previous_score := some 10.0, score_delta := 0.0, trend_direction := "stable"
    is_new := false, is_gone := false, days_tracked := 2 }

/-- The gone-country trend produced for USA in the `histGone`/`curGone`
scenario. -/
def trendUSAGone : CountryTrend :=
  { iso_alpha3 := "USA", country := "United States", scores := [7.0]
    dates := ["2026-10-11"], current_score := 0.0, previous_score := some 7.0
    score_delta := -7.0, trend_direction := "gone", is_new := false
    is_gone := true, days_tracked := 1 }

/-- The gone-airport trend produced for HND in the `histGone`/`curGone`
scenario. -/
def trendHNDGone : AirportTrend :=
  { iata_code := "HND", name := "Haneda", country_iso3 := "JPN", scores := [5.0]
    dates := ["2026-10-11"], current_score := 0.0, previous_score := some 5.0
    score_delta := -5.0, trend_direction := "gone", is_new := false
    is_gone := true, days_tracked := 1, max_pga_g := none }

/-- The full trend summary of the `histGone`/`curGone` scenario. -/
def summaryGone : TrendSummary :=
  { date := "2026-10-12", history_days := 1, history_start := "2026-10-11"
    country_trends := [("JPN", trendJPNStable), ("USA", trendUSAGone)]
    airport_trends := [("HND", trendHNDGone)]
    new_countries := [], gone_countries := ["USA"] }

/-! Rounding lemmas. -/

theorem roundHalfEven_ge_floor (x : ℚ) : ⌊x⌋ ≤ roundHalfEven x := by
  unfold roundHalfEven
  dsimp only
  split_ifs <;> omega

theorem roundHalfEven_le_floor_add_one (x : ℚ) : roundHalfEven x ≤ ⌊x⌋ + 1 := by
  unfold roundHalfEven
  dsimp only
  split_ifs <;> omega

theorem roundHalfEven_abs_le (x : ℚ) : |(roundHalfEven x : ℚ) - x| ≤ 1/2 := by
  have h1 : (⌊x⌋ : ℚ) ≤ x := Int.floor_le x
  have h2 : x < ⌊x⌋ + 1 := Int.lt_floor_add_one x
  unfold roundHalfEven
  dsimp only
  split_ifs <;> rw [abs_sub_le_iff] <;> constructor <;> push_cast <;> linarith

theorem roundHalfEven_mono {x y : ℚ} (h : x ≤ y) : roundHalfEven x ≤ roundHalfEven y := by
  rcases lt_or_eq_of_le (Int.floor_mono h) with hf | hf
  · calc roundHalfEven x ≤ ⌊x⌋ + 1 := roundHalfEven_le_floor_add_one x
      _ ≤ ⌊y⌋ := by omega
      _ ≤ roundHalfEven y := roundHalfEven_ge_floor y
  · unfold roundHalfEven
    dsimp only
    rw [← hf]
    split_ifs <;> first | omega | linarith

theorem roundTo_sub_eq (n : ℕ) (x : ℚ) :
    roundTo n x - x = ((roundHalfEven (x * 10 ^ n) : ℚ) - x * 10 ^ n) / 10 ^ n := by
  have hp : ((10 : ℚ) ^ n) ≠ 0 := by positivity
  unfold roundTo
  field_simp
  ring

theorem roundTo_abs_le (n : ℕ) (x : ℚ) : |roundTo n x - x| ≤ 1 / (2 * 10 ^ n) := by
  have hp : (0 : ℚ) < 10 ^ n := by positivity
  rw [roundTo_sub_eq, abs_div, abs_of_pos hp]
  calc |(roundHalfEven (x * 10 ^ n) : ℚ) - x * 10 ^ n| / 10 ^ n
      ≤ (1/2) / 10 ^ n := by
        exact (div_le_div_iff_of_pos_right hp).mpr (roundHalfEven_abs_le _)
    _ = 1 / (2 * 10 ^ n) := by rw [div_div]

theorem round2_abs_le (x : ℚ) : |round2 x - x| ≤ 1/200 := by
  have h := roundTo_abs_le 2 x
  norm_num at h
  exact h

theorem round1_mono {x y : ℚ} (h : x ≤ y) : round1 x ≤ round1 y := by
  have hp : (0 : ℚ) < 10 ^ 1 := by norm_num
  unfold round1 roundTo
  apply (div_le_div_iff_of_pos_right hp).mpr
  exact_mod_cast roundHalfEven_mono (by nlinarith)

theorem round1_min (a b : ℚ) : round1 (min a b) = min (round1 a) (round1 b) := by
  rcases le_total a b with h | h
  · rw [min_eq_left h, min_eq_left (round1_mono h)]
  · rw [min_eq_right h, min_eq_right (round1_mono h)]

theorem sum_map_round2_sub_le (l : List ℚ) :
    |(l.map round2).sum - l.sum| ≤ (l.length : ℚ) / 200 := by
  induction l with
  | nil => simp
  | cons x xs ih =>
    simp only [List.map_cons, List.sum_cons, List.length_cons]
    have heq : (round2 x + (xs.map round2).sum) - (x + xs.sum)
        = (round2 x - x) + ((xs.map round2).sum - xs.sum) := by ring
    rw [heq]
    calc |(round2 x - x) + ((xs.map round2).sum - xs.sum)|
        ≤ |round2 x - x| + |(xs.map round2).sum - xs.sum| := abs_add _ _
      _ ≤ 1/200 + (xs.length : ℚ)/200 := add_le_add (round2_abs_le x) ih
      _ = ((xs.length + 1 : ℕ) : ℚ)/200 := by push_cast; ring

/-! Claim C3: interpolation bounds and bilinear formula. -/

/-- C3: `interpolate_pga` returns `none` exactly when the longitude falls
outside `[lon_min, lon_max]` or the latitude outside `[lat_min, lat_max]`
(bounds inclusive); every in-bounds point receives the bilinear interpolation
of PGA and MMI described by the spec (`interpolateSpec`); and on the 5 × 5
scenario grid, `interpolate_pga grid 35.5 139.5 = (15.0, 7.0)`. -/
theorem C3_interpolate_pga (grid : ShakeMapGrid) (lat lon : ℚ) :
    (interpolate_pga grid lat lon = none ↔
      (lon < grid.lon_min ∨ lon > grid.lon_max ∨ lat < grid.lat_min ∨ lat > grid.lat_max))
    ∧ (grid.lon_min ≤ lon → lon ≤ grid.lon_max → grid.lat_min ≤ lat → lat ≤ grid.lat_max →
        interpolate_pga grid lat lon = some (interpolateSpec grid lat lon))
    ∧ interpolate_pga gridScenario 35.5 139.5 = some (15.0, 7.0) := by
  refine ⟨?_, ?_, by decide⟩
  · unfold interpolate_pga
    dsimp only
    split_ifs with h1 h2
    · exact iff_of_true rfl (by tauto)
    · exact iff_of_true rfl (by tauto)
    · refine iff_of_false (by simp) ?_
      push_neg at h1 h2 ⊢
      exact ⟨h1.1, h1.2, h2.1, h2.2⟩
  · intro ha hb hc hd
    unfold interpolate_pga interpolateSpec
    dsimp only
    rw [if_neg (by simp [not_or, not_lt]; exact ⟨ha, hb⟩),
        if_neg (by simp [not_or, not_lt]; exact ⟨hc, hd⟩)]
    norm_num

/-- Witness for C3 at the scenario grid and the in-bounds point
(35.5, 139.5). -/
theorem C3_witness :
    interpolate_pga gridScenario 35.5 139.5 = some (interpolateSpec gridScenario 35.5 139.5) :=
  (C3_interpolate_pga gridScenario 35.5 139.5).2.1
    (by decide) (by decide) (by decide) (by decide)

/-! Claim C4: the felt-radius algorithm. -/

theorem feltNewton_eq_spec (P : Prims) (c : ℚ) (fuel : ℕ) :
    ∀ r, feltNewton P c fuel r = feltNewtonSpec P c fuel r := by
  induction fuel with
  | zero => intro r; rfl
  | succ n ih =>
    intro r
    unfold feltNewton feltNewtonSpec
    dsimp only
    split_ifs <;> first | rfl | apply ih

/-- C4: `felt_radius_km` returns the 5.0 km floor directly when
`c = 3.70 + 1.17 M - 5.0 ≤ 0`, otherwise follows the spec's Newton algorithm
(initial guess 50 km, at most 20 iterations, tolerance 0.01 km, safeguarded
update, depth clamp, surface conversion); and its value never falls below
5.0 km. -/
theorem C4_felt_radius (P : Prims) (m d : ℚ) :
    (3.70 + 1.17 * m - 5.0 ≤ 0 → felt_radius_km P m d = 5.0)
    ∧ felt_radius_km P m d = felt_radius_spec P m d
    ∧ 5.0 ≤ felt_radius_km P m d := by
  refine ⟨?_, ?_, ?_⟩
  · intro h
    unfold felt_radius_km
    dsimp only
    rw [if_pos h]
  · unfold felt_radius_km felt_radius_spec
    dsimp only
    rw [feltNewton_eq_spec]
  · unfold felt_radius_km
    dsimp only
    split_ifs <;> first | exact le_refl _ | exact le_max_right _ _

/-- Witness for C4 at magnitude 1, depth 0: there `c = -0.13 ≤ 0` and the
felt radius is the 5.0 km floor. -/
theorem C4_witness : felt_radius_km qPrims 1 0 = 5.0 :=
  (C4_felt_radius qPrims 1 0).1 (by decide)

/-! Claim C7: legacy scoring and dispatch errors. -/

/-- C7: with method "legacy", `calculate_risk_score` fails with a validation
error when any of the three aggregate inputs is missing; with all three it
delegates to `calculate_legacy_score`, which fails exactly when
`exposed_airport_count = 0` and otherwise returns the rounded ratio (so
`calculate_legacy_score 10 5.0 2 = 25.0`); and any method outside
{"shakemap", "exposure", "heuristic", "legacy"} fails with a validation error
naming the unknown method. -/
theorem C7_legacy_and_dispatch (P : Prims) (airports : List Airport)
    (earthquakes : List Earthquake) (maxd : ℚ) (method : String)
    (ec : Option ℤ) (av : Option ℚ) (cnt : Option ℤ)
    (exA : Option (List ExposedAirport)) :
    ((ec = none ∨ av = none ∨ cnt = none) →
      calculate_risk_score P airports earthquakes maxd "legacy" ec av cnt exA =
        .error "Legacy method requires earthquake_count, avg_magnitude, and exposed_airport_count")
    ∧ (∀ (e : ℤ) (a : ℚ) (c : ℤ),
        calculate_risk_score P airports earthquakes maxd "legacy"
          (some e) (some a) (some c) exA = calculate_legacy_score e a c)
    ∧ (∀ (e : ℤ) (a : ℚ) (c : ℤ), calculate_legacy_score e a c =
        if c = 0 then Except.error "Cannot compute risk score with zero exposed airports"
        else Except.ok (round2 ((e * a : ℚ) / (c : ℚ))))
    ∧ calculate_legacy_score 10 5.0 2 = .ok 25.0
    ∧ (method ≠ "shakemap" → method ≠ "exposure" → method ≠ "heuristic" → method ≠ "legacy" →
        calculate_risk_score P airports earthquakes maxd method ec av cnt exA =
          .error ("Unknown scoring method: " ++ method)) := by
  refine ⟨?_, ?_, ?_, by decide, ?_⟩
  · intro h
    rcases ec with _ | e <;> rcases av with _ | a <;> rcases cnt with _ | c <;>
      first
        | rfl
        | (exfalso; rcases h with h | h | h <;> exact Option.noConfusion h)
  · intro e a c
    rfl
  · intro e a c
    rfl
  · intro h1 h2 h3 h4
    unfold calculate_risk_score
    rw [if_neg (by simp [h1, h2, h3]), if_neg h4]

/-- Witness for C7: the missing-arguments error with method "legacy" and the
unknown-method error with method "pga-max". -/
theorem C7_witness :
    calculate_risk_score qPrims [] [] 200 "legacy" none none none none =
      .error "Legacy method requires earthquake_count, avg_magnitude, and exposed_airport_count"
    ∧ calculate_risk_score qPrims [] [] 200 "pga-max" none none none none =
      .error ("Unknown scoring method: " ++ "pga-max") :=
  ⟨(C7_legacy_and_dispatch qPrims [] [] 200 "legacy" none none none none).1 (Or.inl rfl),
   (C7_legacy_and_dispatch qPrims [] [] 200 "pga-max" none none none none).2.2.2.2
     (by decide) (by decide) (by decide) (by decide)⟩

/-! Structure of `find_exposed_airports`. -/

instance : IsTotal NearbyQuake (fun a b => a.distance_km ≤ b.distance_km) :=
  ⟨fun _ _ => le_total _ _⟩

instance : IsTrans NearbyQuake (fun a b => a.distance_km ≤ b.distance_km) :=
  ⟨fun _ _ _ => le_trans⟩

theorem processAirport_none_iff (P : Prims) (grids : Option (List (String × ShakeMapGrid)))
    (maxd : ℚ) (eqs : List Earthquake) (ap : Airport) :
    processAirport P grids maxd eqs ap = none ↔ qualifying P maxd ap eqs = [] := by
  cases h : qualifying P maxd ap eqs with
  | nil => simp [processAirport, h]
  | cons q0 rest => simp [processAirport, h]

theorem processAirport_eq_some {P : Prims} {grids : Option (List (String × ShakeMapGrid))}
    {maxd : ℚ} {eqs : List Earthquake} {ap : Airport} {ea : ExposedAirport}
    (h : processAirport P grids maxd eqs ap = some ea) :
    ∃ q0 rest, qualifying P maxd ap eqs = q0 :: rest ∧
      ea = { name := ap.name
             iata_code := ap.iata_code
             latitude := round6 ap.latitude
             longitude := round6 ap.longitude
             municipality := ap.municipality
             closest_quake_distance_km :=
               round1 (rest.foldl (fun b pq => min b pq.2) q0.2)
             nearby_quakes :=
               ((q0 :: rest).map (fun pq => mkNearbyQuake P grids ap pq.1 pq.2)).insertionSort
                 (fun a b => a.distance_km ≤ b.distance_km)
             exposure_score := round2 (rawScore P grids maxd eqs ap) } := by
  cases hq : qualifying P maxd ap eqs with
  | nil =>
    rw [processAirport, hq] at h
    exact absurd h (by simp)
  | cons q0 rest =>
    refine ⟨q0, rest, rfl, ?_⟩
    rw [processAirport, hq] at h
    simpa using h.symm

theorem mem_qualifying {P : Prims} {maxd : ℚ} {ap : Airport} {eqs : List Earthquake}
    {q : Earthquake} {dq : ℚ} :
    (q, dq) ∈ qualifying P maxd ap eqs ↔
      q ∈ eqs ∧ dq = haversine P ap.latitude ap.longitude q.latitude q.longitude
        ∧ dq ≤ maxd := by
  unfold qualifying
  simp only [List.mem_filter, List.mem_map, decide_eq_true_eq, Prod.mk.injEq]
  constructor
  · rintro ⟨⟨q2, hq2, rfl, rfl⟩, hle⟩
    exact ⟨hq2, rfl, hle⟩
  · rintro ⟨hmem, rfl, hle⟩
    exact ⟨⟨q, hmem, rfl, rfl⟩, hle⟩

theorem rawScore_grids_none (P : Prims) (maxd : ℚ) (eqs : List Earthquake) (ap : Airport) :
    rawScore P none maxd eqs ap =
      ((qualifying P maxd ap eqs).map
        (fun pq => heuristic_contribution P pq.1.magnitude pq.2 pq.1.depth_km)).sum := rfl

theorem calculate_exposure_eq_sum (P : Prims) (airports : List Airport)
    (earthquakes : List Earthquake) (maxd : ℚ) :
    calculate_exposure_score P airports earthquakes maxd =
      round2 ((airports.map (fun ap => rawScore P none maxd earthquakes ap)).sum) := rfl

theorem filterMap_scores_close (P : Prims) (grids : Option (List (String × ShakeMapGrid)))
    (maxd : ℚ) (eqs : List Earthquake) (aps : List Airport) :
    |((aps.filterMap (processAirport P grids maxd eqs)).map
        (fun ea => ea.exposure_score)).sum
      - (aps.map (fun ap => rawScore P grids maxd eqs ap)).sum|
    ≤ ((aps.filterMap (processAirport P grids maxd eqs)).length : ℚ) / 200 := by
  induction aps with
  | nil => simp
  | cons ap aps ih =>
    cases h : processAirport P grids maxd eqs ap with
    | none =>
      have hq : qualifying P maxd ap eqs = [] := (processAirport_none_iff P grids maxd eqs ap).mp h
      have hz : rawScore P grids maxd eqs ap = 0 := by
        unfold rawScore
        rw [hq]
        simp
      simp only [List.filterMap_cons_none h, List.map_cons, List.sum_cons, hz, zero_add]
      exact ih
    | some ea =>
      obtain ⟨q0, rest, hq, rfl⟩ := processAirport_eq_some h
      simp only [List.filterMap_cons_some h, List.map_cons, List.sum_cons, List.length_cons]
      have heq : (round2 (rawScore P grids maxd eqs ap)
            + ((aps.filterMap (processAirport P grids maxd eqs)).map
                (fun ea => ea.exposure_score)).sum)
          - (rawScore P grids maxd eqs ap
            + (aps.map (fun ap => rawScore P grids maxd eqs ap)).sum)
          = (round2 (rawScore P grids maxd eqs ap) - rawScore P grids maxd eqs ap)
            + (((aps.filterMap (processAirport P grids maxd eqs)).map
                (fun ea => ea.exposure_score)).sum
              - (aps.map (fun ap => rawScore P grids maxd eqs ap)).sum) := by ring
      rw [heq]
      calc |(round2 (rawScore P grids maxd eqs ap) - rawScore P grids maxd eqs ap)
            + (((aps.filterMap (processAirport P grids maxd eqs)).map
                (fun ea => ea.exposure_score)).sum
              - (aps.map (fun ap => rawScore P grids maxd eqs ap)).sum)|
          ≤ |round2 (rawScore P grids maxd eqs ap) - rawScore P grids maxd eqs ap|
            + |((aps.filterMap (processAirport P grids maxd eqs)).map
                (fun ea => ea.exposure_score)).sum
              - (aps.map (fun ap => rawScore P grids maxd eqs ap)).sum| := abs_add _ _
        _ ≤ 1/200 + ((aps.filterMap (processAirport P grids maxd eqs)).length : ℚ) / 200 :=
            add_le_add (round2_abs_le _) ih
        _ = (((aps.filterMap (processAirport P grids maxd eqs)).length + 1 : ℕ) : ℚ) / 200 := by
            push_cast
            ring

/-! Claim C1: precomputed versus from-scratch exposure scores. -/

/-- C1 counterexample: two airports at the origin and four magnitude −6
earthquakes at the origin, each contributing exactly 1/1000. Each airport's
raw score 0.004 rounds to 0.00, so the precomputed path yields 0.00, while
the from-scratch path rounds the raw total 0.008 to 0.01. (Under Python
floats the same inputs behave identically: every intermediate value here is
exact.) -/
theorem C1_counterexample :
    ¬ (sum_airport_scores (find_exposed_airports qPrims [airportA, airportB]
          [quakeTiny, quakeTiny, quakeTiny, quakeTiny] 200 none)
        = calculate_exposure_score qPrims [airportA, airportB]
          [quakeTiny, quakeTiny, quakeTiny, quakeTiny] 200) := by
  decide

/-- C1 (amended): with no ShakeMap grids supplied, `calculate_risk_score`'s
two paths — summing precomputed `exposure_score`s of
`find_exposed_airports` versus recomputing with `calculate_exposure_score` —
agree not exactly but up to per-airport rounding slack: they differ by at
most `0.005 * (k + 2)` where `k` is the number of exposed airports. -/
theorem C1_exposure_refinement (P : Prims) (airports : List Airport)
    (earthquakes : List Earthquake) (maxd : ℚ) :
    |sum_airport_scores (find_exposed_airports P airports earthquakes maxd none)
      - calculate_exposure_score P airports earthquakes maxd|
    ≤ (((find_exposed_airports P airports earthquakes maxd none).length : ℚ) + 2) / 200 := by
  have hA : sum_airport_scores (find_exposed_airports P airports earthquakes maxd none)
      = round2 (((airports.filterMap (processAirport P none maxd earthquakes)).map
          (fun ea => ea.exposure_score)).sum) := rfl
  have hT : calculate_exposure_score P airports earthquakes maxd
      = round2 ((airports.map (fun ap => rawScore P none maxd earthquakes ap)).sum) := rfl
  set A := ((airports.filterMap (processAirport P none maxd earthquakes)).map
    (fun ea => ea.exposure_score)).sum with hAdef
  set T := (airports.map (fun ap => rawScore P none maxd earthquakes ap)).sum with hTdef
  have h1 := round2_abs_le A
  have h2 := filterMap_scores_close P none maxd earthquakes airports
  have h3 := round2_abs_le T
  rw [hA, hT]
  have key : round2 A - round2 T
      = (round2 A - A) + ((A - T) + (T - round2 T)) := by ring
  rw [key]
  have hk : |T - round2 T| = |round2 T - T| := abs_sub_comm T (round2 T)
  calc |(round2 A - A) + ((A - T) + (T - round2 T))|
      ≤ |round2 A - A| + |(A - T) + (T - round2 T)| := abs_add _ _
    _ ≤ |round2 A - A| + (|A - T| + |T - round2 T|) :=
        add_le_add_left (abs_add _ _) _
    _ ≤ 1/200 + (((airports.filterMap (processAirport P none maxd earthquakes)).length : ℚ) / 200
          + 1/200) := by
        refine add_le_add h1 (add_le_add h2 ?_)
        rw [hk]
        exact h3
    _ ≤ (((find_exposed_airports P airports earthquakes maxd none).length : ℚ) + 2) / 200 := by
        have : find_exposed_airports P airports earthquakes maxd none
            = airports.filterMap (processAirport P none maxd earthquakes) := rfl
        rw [this]
        ring_nf
        exact le_refl _

/-! Claim C2: exposure score versus summed contributions. -/

/-- C2 counterexample: one airport and six earthquakes, each with a ShakeMap
grid interpolating to 0.0049 %g at the airport. Each per-quake contribution
rounds to 0.00 while the per-airport score rounds 0.0294 to 0.03, so the
difference is 0.03 > 0.02. (Python floats reproduce this: with grid value
0.0049 the same roundings occur.) -/
theorem C2_counterexample :
    ¬ (∀ ea ∈ find_exposed_airports qPrims [airportA] quakesSix 200 (some gridsSix),
        |ea.exposure_score
            - (ea.nearby_quakes.map (fun nq => nq.exposure_contribution)).sum|
          ≤ 0.02) := by
  decide

/-- C2 (amended): for every input, every `ExposedAirport` returned by
`find_exposed_airports` satisfies
`|exposure_score - Σ nearby exposure_contribution| ≤ 0.005 * (n + 1)`
where `n` is the number of nearby quakes (0.02 holds whenever `n ≤ 3`, but
not in general). -/
theorem C2_score_vs_contributions (P : Prims) (airports : List Airport)
    (earthquakes : List Earthquake) (maxd : ℚ)
    (grids : Option (List (String × ShakeMapGrid))) :
    ∀ ea ∈ find_exposed_airports P airports earthquakes maxd grids,
      |ea.exposure_score
          - (ea.nearby_quakes.map (fun nq => nq.exposure_contribution)).sum|
        ≤ ((ea.nearby_quakes.length : ℚ) + 1) / 200 := by
  intro ea hea
  obtain ⟨ap, hap, hsome⟩ := List.mem_filterMap.mp hea
  obtain ⟨q0, rest, hq, rfl⟩ := processAirport_eq_some hsome
  dsimp only
  set nb0 := (q0 :: rest).map (fun pq => mkNearbyQuake P grids ap pq.1 pq.2) with hnb0
  have hperm : (nb0.insertionSort (fun a b => a.distance_km ≤ b.distance_km)).Perm nb0 :=
    List.perm_insertionSort _ _
  have hsum : ((nb0.insertionSort (fun a b => a.distance_km ≤ b.distance_km)).map
        (fun nq => nq.exposure_contribution)).sum
      = (nb0.map (fun nq => nq.exposure_contribution)).sum :=
    (hperm.map _).sum_eq
  have hlen : (nb0.insertionSort (fun a b => a.distance_km ≤ b.distance_km)).length
      = nb0.length := hperm.length_eq
  rw [hsum, hlen]
  have hm : nb0.map (fun nq => nq.exposure_contribution)
      = ((q0 :: rest).map (fun pq => (quakeContribution P grids ap pq.1 pq.2).1)).map round2 := by
    rw [hnb0, List.map_map, List.map_map]
    rfl
  have hraw : rawScore P grids maxd earthquakes ap
      = ((q0 :: rest).map (fun pq => (quakeContribution P grids ap pq.1 pq.2).1)).sum := by
    unfold rawScore
    rw [hq]
  rw [hm, hraw]
  set cs := (q0 :: rest).map (fun pq => (quakeContribution P grids ap pq.1 pq.2).1) with hcs
  have h1 := round2_abs_le cs.sum
  have h2 := sum_map_round2_sub_le cs
  have key : round2 cs.sum - (cs.map round2).sum
      = (round2 cs.sum - cs.sum) - ((cs.map round2).sum - cs.sum) := by ring
  rw [key]
  have hlen2 : nb0.length = cs.length := by
    rw [hnb0, hcs]
    simp
  calc |(round2 cs.sum - cs.sum) - ((cs.map round2).sum - cs.sum)|
      ≤ |round2 cs.sum - cs.sum| + |(cs.map round2).sum - cs.sum| := abs_sub _ _
    _ ≤ 1/200 + (cs.length : ℚ) / 200 := add_le_add h1 h2
    _ = ((cs.length : ℚ) + 1) / 200 := by ring
    _ = ((nb0.length : ℚ) + 1) / 200 := by rw [hlen2]

/-- Witness scenario for C2/C8: the single exposed airport produced by
`find_exposed_airports qPrims [airportA] [quakeTiny] 200 none`. -/
def exposedScenario : ExposedAirport :=
  { name := "Alpha"
    iata_code := "AAA"
    latitude := 0
    longitude := 0
    municipality := "Alphaville"
    closest_quake_distance_km := 0
    nearby_quakes := [⟨"q1", -6, 0, 0, 0, 0, "Origin", 0, 0, none, none⟩]
    exposure_score := 0 }

/-- Witness for C2 at the one-airport one-quake scenario. -/
theorem C2_witness :
    |exposedScenario.exposure_score
        - (exposedScenario.nearby_quakes.map (fun nq => nq.exposure_contribution)).sum|
      ≤ ((exposedScenario.nearby_quakes.length : ℚ) + 1) / 200 :=
  C2_score_vs_contributions qPrims [airportA] [quakeTiny] 200 none
    exposedScenario (by decide)

/-! Minimum folds (the `best` accumulator of `find_exposed_airports`). -/

theorem foldl_min_mem (x : ℚ) (l : List ℚ) : l.foldl min x ∈ x :: l := by
  induction l generalizing x with
  | nil => simp
  | cons y ys ih =>
    simp only [List.foldl_cons]
    rcases List.mem_cons.mp (ih (min x y)) with h | h
    · rcases min_choice x y with hc | hc <;> rw [h, hc] <;> simp
    · simp [List.mem_cons, h]

theorem foldl_min_le (x : ℚ) (l : List ℚ) : ∀ y ∈ x :: l, l.foldl min x ≤ y := by
  induction l generalizing x with
  | nil =>
    intro y hy
    simp only [List.mem_cons, List.not_mem_nil, or_false] at hy
    simp [hy]
  | cons z zs ih =>
    intro y hy
    simp only [List.foldl_cons]
    have hself : zs.foldl min (min x z) ≤ min x z :=
      ih (min x z) (min x z) (List.mem_cons_self _ _)
    rcases List.mem_cons.mp hy with rfl | hy2
    · exact le_trans hself (min_le_left _ _)
    · rcases List.mem_cons.mp hy2 with rfl | hy3
      · exact le_trans hself (min_le_right _ _)
      · exact ih (min x z) y (List.mem_cons_of_mem _ hy3)

theorem round1_foldl_min (x : ℚ) (l : List ℚ) :
    round1 (l.foldl min x) = (l.map round1).foldl min (round1 x) := by
  induction l generalizing x with
  | nil => rfl
  | cons y ys ih =>
    simp only [List.foldl_cons, List.map_cons]
    rw [ih (min x y), round1_min]

theorem mkNearbyQuake_distance (P : Prims) (grids : Option (List (String × ShakeMapGrid)))
    (ap : Airport) (q : Earthquake) (d : ℚ) :
    (mkNearbyQuake P grids ap q d).distance_km = round1 d := rfl

/-! Claim C8: invariants of the exposed-airport records. -/

/-- C8: every `ExposedAirport` returned by `find_exposed_airports` has a
non-empty `nearby_quakes` list sorted ascending by `distance_km`, each nearby
quake comes from an earthquake whose raw epicentral distance from the source
airport is at most `max_distance_km` (the stored `distance_km` being that
distance rounded to one decimal), and an airport with no earthquake within
`max_distance_km` contributes nothing to the result list. -/
theorem C8_exposed_invariants (P : Prims) (airports : List Airport)
    (earthquakes : List Earthquake) (maxd : ℚ)
    (grids : Option (List (String × ShakeMapGrid))) :
    (∀ ea ∈ find_exposed_airports P airports earthquakes maxd grids,
      ea.nearby_quakes ≠ []
      ∧ ea.nearby_quakes.Pairwise (fun a b => a.distance_km ≤ b.distance_km)
      ∧ ∃ ap ∈ airports, processAirport P grids maxd earthquakes ap = some ea
          ∧ ∀ nq ∈ ea.nearby_quakes, ∃ q ∈ earthquakes,
              nq.earthquake_id = q.id
              ∧ haversine P ap.latitude ap.longitude q.latitude q.longitude ≤ maxd
              ∧ nq.distance_km
                  = round1 (haversine P ap.latitude ap.longitude q.latitude q.longitude))
    ∧ (∀ ap ∈ airports,
        (∀ q ∈ earthquakes,
          ¬ haversine P ap.latitude ap.longitude q.latitude q.longitude ≤ maxd) →
        processAirport P grids maxd earthquakes ap = none) := by
  constructor
  · intro ea hea
    obtain ⟨ap, hap, hsome⟩ := List.mem_filterMap.mp hea
    obtain ⟨q0, rest, hq, rfl⟩ := processAirport_eq_some hsome
    dsimp only
    set nb0 := (q0 :: rest).map (fun pq => mkNearbyQuake P grids ap pq.1 pq.2) with hnb0
    have hperm : (nb0.insertionSort (fun a b => a.distance_km ≤ b.distance_km)).Perm nb0 :=
      List.perm_insertionSort _ _
    refine ⟨?_, List.sorted_insertionSort _ _, ap, hap, hsome, ?_⟩
    · intro hnil
      have hlen := hperm.length_eq
      rw [hnil, hnb0] at hlen
      simp at hlen
    · intro nq hnq
      have hnq0 : nq ∈ nb0 := hperm.mem_iff.mp hnq
      rw [hnb0] at hnq0
      obtain ⟨pq, hpq, rfl⟩ := List.mem_map.mp hnq0
      obtain ⟨q, dq⟩ := pq
      have hpq2 : (q, dq) ∈ qualifying P maxd ap earthquakes := hq ▸ hpq
      obtain ⟨hqmem, hd, hle⟩ := mem_qualifying.mp hpq2
      subst hd
      exact ⟨q, hqmem, rfl, hle, mkNearbyQuake_distance P grids ap q _⟩
  · intro ap hap hfar
    apply (processAirport_none_iff P grids maxd earthquakes ap).mpr
    unfold qualifying
    rw [List.filter_eq_nil_iff]
    intro pq hpq
    obtain ⟨q, hqm, rfl⟩ := List.mem_map.mp hpq
    simpa using hfar q hqm

/-- Witness for C8 at the one-airport one-quake scenario. -/
theorem C8_witness :
    exposedScenario.nearby_quakes ≠ []
    ∧ exposedScenario.nearby_quakes.Pairwise (fun a b => a.distance_km ≤ b.distance_km)
    ∧ ∃ ap ∈ [airportA], processAirport qPrims none 200 [quakeTiny] ap = some exposedScenario
        ∧ ∀ nq ∈ exposedScenario.nearby_quakes, ∃ q ∈ [quakeTiny],
            nq.earthquake_id = q.id
            ∧ haversine qPrims ap.latitude ap.longitude q.latitude q.longitude ≤ 200
            ∧ nq.distance_km
                = round1 (haversine qPrims ap.latitude ap.longitude q.latitude q.longitude) :=
  (C8_exposed_invariants qPrims [airportA] [quakeTiny] 200 none).1
    exposedScenario (by decide)

/-! Claim C10: the closest-quake distance. -/

/-- C10: for every `ExposedAirport`, `closest_quake_distance_km` is the
`distance_km` of the first element of the sorted `nearby_quakes` list; it
equals the one-decimal rounding of the minimum raw epicentral distance, and
that rounding of the minimum coincides with the minimum of the per-quake
rounded distances because rounding is monotone. -/
theorem C10_closest_distance (P : Prims) (airports : List Airport)
    (earthquakes : List Earthquake) (maxd : ℚ)
    (grids : Option (List (String × ShakeMapGrid))) :
    ∀ ea ∈ find_exposed_airports P airports earthquakes maxd grids,
      ea.nearby_quakes.head?.map (fun nq => nq.distance_km)
          = some ea.closest_quake_distance_km
      ∧ ∃ ap ∈ airports, ∃ q0 rest,
          qualifying P maxd ap earthquakes = q0 :: rest
          ∧ ea.closest_quake_distance_km
              = round1 ((rest.map (fun pq => pq.2)).foldl min q0.2)
          ∧ round1 ((rest.map (fun pq => pq.2)).foldl min q0.2)
              = ((rest.map (fun pq => pq.2)).map round1).foldl min (round1 q0.2) := by
  intro ea hea
  obtain ⟨ap, hap, hsome⟩ := List.mem_filterMap.mp hea
  obtain ⟨q0, rest, hq, rfl⟩ := processAirport_eq_some hsome
  dsimp only
  have hfold : rest.foldl (fun b pq => min b pq.2) q0.2
      = (rest.map (fun pq => pq.2)).foldl min q0.2 := (List.foldl_map _ _ _ _).symm
  constructor
  · -- head of the sorted list carries the rounded minimum distance
    set nb0 := (q0 :: rest).map (fun pq => mkNearbyQuake P grids ap pq.1 pq.2) with hnb0
    have hperm : (nb0.insertionSort (fun a b => a.distance_km ≤ b.distance_km)).Perm nb0 :=
      List.perm_insertionSort _ _
    have hsorted : (nb0.insertionSort (fun a b => a.distance_km ≤ b.distance_km)).Pairwise
        (fun a b => a.distance_km ≤ b.distance_km) := List.sorted_insertionSort _ _
    cases hs : nb0.insertionSort (fun a b => a.distance_km ≤ b.distance_km) with
    | nil =>
      exfalso
      have hlen := hperm.length_eq
      rw [hs, hnb0] at hlen
      simp at hlen
    | cons s0 stail =>
      simp only [List.head?_cons, Option.map_some']
      congr 1
      -- the list of stored distances, in unsorted order
      have hdists : nb0.map (fun nq => nq.distance_km)
          = round1 q0.2 :: rest.map (fun pq => round1 pq.2) := by
        rw [hnb0, List.map_map]
        rfl
      -- the minimum of the stored distances
      set mu := (rest.map (fun pq => round1 pq.2)).foldl min (round1 q0.2) with hmu
      have hmu_mem : mu ∈ nb0.map (fun nq => nq.distance_km) := by
        rw [hdists]
        exact foldl_min_mem _ _
      have hmu_le : ∀ z ∈ nb0.map (fun nq => nq.distance_km), mu ≤ z := by
        rw [hdists]
        exact foldl_min_le _ _
      -- head distance is a stored distance and a lower bound of all of them
      have hs0_mem : s0 ∈ nb0 := hperm.mem_iff.mp (hs ▸ List.mem_cons_self _ _)
      have hs0_le : ∀ nq ∈ nb0, s0.distance_km ≤ nq.distance_km := by
        intro nq hnq
        have : nq ∈ s0 :: stail := hs ▸ hperm.mem_iff.mpr hnq
        rcases List.mem_cons.mp this with rfl | htail
        · exact le_refl _
        · exact (List.pairwise_cons.mp (hs ▸ hsorted)).1 nq htail
      -- hence the head distance equals the minimum
      have h1 : s0.distance_km ≤ mu := by
        obtain ⟨nq, hnqmem, hnqd⟩ := List.mem_map.mp hmu_mem
        exact hnqd ▸ hs0_le nq hnqmem
      have h2 : mu ≤ s0.distance_km :=
        hmu_le _ (List.mem_map_of_mem _ hs0_mem)
      have hmain : s0.distance_km = mu := le_antisymm h1 h2
      rw [hmain, hmu, hfold, round1_foldl_min, List.map_map]
      rfl
  · refine ⟨ap, hap, q0, rest, hq, by rw [hfold], ?_⟩
    rw [round1_foldl_min]

/-- Witness for C10 at the one-airport one-quake scenario. -/
theorem C10_witness :
    exposedScenario.nearby_quakes.head?.map (fun nq => nq.distance_km)
        = some exposedScenario.closest_quake_distance_km
    ∧ ∃ ap ∈ [airportA], ∃ q0 rest,
        qualifying qPrims 200 ap [quakeTiny] = q0 :: rest
        ∧ exposedScenario.closest_quake_distance_km
            = round1 ((rest.map (fun pq => pq.2)).foldl min q0.2)
        ∧ round1 ((rest.map (fun pq => pq.2)).foldl min q0.2)
            = ((rest.map (fun pq => pq.2)).map round1).foldl min (round1 q0.2) :=
  C10_closest_distance qPrims [airportA] [quakeTiny] 200 none
    exposedScenario (by decide)

/-! Claim C9: seismic statistics. -/

theorem firstMaxBy_cons (f : α → ℚ) (x : α) (xs : List α) :
    firstMaxBy f (x :: xs) = match firstMaxBy f xs with
      | none => some x
      | some y => some (if f y > f x then y else x) := rfl

theorem pyMaxBy_mem (f : α → ℚ) (x : α) (xs : List α) : pyMaxBy f x xs ∈ x :: xs := by
  unfold pyMaxBy
  induction xs generalizing x with
  | nil => simp
  | cons y ys ih =>
    simp only [List.foldl_cons]
    rcases List.mem_cons.mp (ih (if f y > f x then y else x)) with h | h
    · rw [h]
      split_ifs <;> simp
    · simp [List.mem_cons, h]

theorem pyMaxBy_ub (f : α → ℚ) (x : α) (xs : List α) :
    ∀ y ∈ x :: xs, f y ≤ f (pyMaxBy f x xs) := by
  unfold pyMaxBy
  induction xs generalizing x with
  | nil =>
    intro y hy
    simp only [List.mem_cons, List.not_mem_nil, or_false] at hy
    simp [hy]
  | cons z zs ih =>
    intro y hy
    simp only [List.foldl_cons]
    have hxb : f x ≤ f (if f z > f x then z else x) := by
      split_ifs with h
      · exact le_of_lt h
      · exact le_refl _
    have hzb : f z ≤ f (if f z > f x then z else x) := by
      split_ifs with h
      · exact le_refl _
      · exact not_lt.mp h
    have hbb := ih (if f z > f x then z else x) _ (List.mem_cons_self _ _)
    rcases List.mem_cons.mp hy with rfl | hy2
    · exact le_trans hxb hbb
    · rcases List.mem_cons.mp hy2 with rfl | hy3
      · exact le_trans hzb hbb
      · exact ih (if f z > f x then z else x) y (List.mem_cons_of_mem _ hy3)

theorem pyMaxBy_eq_firstMaxBy (f : α → ℚ) (xs : List α) :
    ∀ x, some (pyMaxBy f x xs) = firstMaxBy f (x :: xs) := by
  induction xs with
  | nil => intro x; rfl
  | cons y ys ih =>
    intro x
    have lhs : pyMaxBy f x (y :: ys) = pyMaxBy f (if f y > f x then y else x) ys := by
      unfold pyMaxBy
      rw [List.foldl_cons]
    rw [lhs, ih]
    cases hys : firstMaxBy f ys with
    | none =>
      simp only [firstMaxBy_cons, hys]
    | some z =>
      simp only [firstMaxBy_cons, hys]
      by_cases h1 : f y > f x
      · rw [if_pos h1]
        by_cases h2 : f z > f y
        · rw [if_pos h2, if_pos (lt_trans h1 h2)]
        · rw [if_neg h2, if_pos h1]
      · rw [if_neg h1]
        by_cases h2 : f z > f y
        · rw [if_pos h2]
        · rw [if_neg h2, if_neg h1,
             if_neg (not_lt.mpr (le_trans (not_lt.mp h2) (not_lt.mp h1)))]

/-- C9: `compute_seismic_stats` fails with a validation error exactly on the
empty list; on a non-empty list it returns the mean magnitude rounded to two
decimals together with a summary of the first maximal-magnitude earthquake,
whose date is the UTC `YYYY-MM-DD` string derived from its epoch-millisecond
time. -/
theorem C9_seismic_stats (earthquakes : List Earthquake) :
    ((∃ msg, compute_seismic_stats earthquakes = .error msg) ↔ earthquakes = [])
    ∧ (∀ avg st, compute_seismic_stats earthquakes = .ok (avg, st) →
        avg = round2 ((earthquakes.map (fun q => q.magnitude)).sum / (earthquakes.length : ℚ))
        ∧ ∃ e, firstMaxBy (fun q => q.magnitude) earthquakes = some e
            ∧ e ∈ earthquakes
            ∧ (∀ q ∈ earthquakes, q.magnitude ≤ e.magnitude)
            ∧ st.magnitude = e.magnitude
            ∧ st.date = epochMsToDateString e.time_ms
            ∧ st.depth_km = round1 e.depth_km
            ∧ st.latitude = round4 e.latitude
            ∧ st.longitude = round4 e.longitude) := by
  constructor
  · cases earthquakes with
    | nil => exact iff_of_true ⟨_, rfl⟩ rfl
    | cons e0 rest =>
      constructor
      · rintro ⟨msg, hmsg⟩
        exact absurd hmsg (by simp [compute_seismic_stats])
      · intro h
        exact absurd h (by simp)
  · intro avg st h
    cases earthquakes with
    | nil =>
      exact absurd h (by simp [compute_seismic_stats])
    | cons e0 rest =>
      unfold compute_seismic_stats at h
      simp only [Except.ok.injEq, Prod.mk.injEq] at h
      obtain ⟨havg, hst⟩ := h
      refine ⟨havg.symm, pyMaxBy (fun q => q.magnitude) e0 rest,
        (pyMaxBy_eq_firstMaxBy _ rest e0).symm,
        pyMaxBy_mem _ e0 rest, pyMaxBy_ub _ e0 rest, ?_, ?_, ?_, ?_, ?_⟩ <;>
        rw [← hst]

/-- The two magnitude-5 earthquakes of the C9 witness (a tie broken in favour
of the first). -/
def quakeC9a : Earthquake := ⟨"a", 5, 1, 2, 3, 0, "pa", "", false⟩

/-- The second, equally strong earthquake of the C9 witness. -/
def quakeC9b : Earthquake := ⟨"b", 5, 4, 5, 6, 0, "pb", "", false⟩

/-- Witness for C9 on a two-element list with tied magnitudes: the stats call
returns average 5.0 and the summary of the first of the two, dated
1970-01-01 from epoch time 0. -/
theorem C9_witness :
    (5 : ℚ) = round2 ((([quakeC9a, quakeC9b] : List Earthquake).map
        (fun q => q.magnitude)).sum / (([quakeC9a, quakeC9b] : List Earthquake).length : ℚ))
    ∧ ∃ e, firstMaxBy (fun q => q.magnitude) [quakeC9a, quakeC9b] = some e
        ∧ e ∈ [quakeC9a, quakeC9b]
        ∧ (∀ q ∈ [quakeC9a, quakeC9b], q.magnitude ≤ e.magnitude)
        ∧ (⟨5, "1970-01-01", 3, 1, 2⟩ : StrongestEarthquake).magnitude = e.magnitude
        ∧ (⟨5, "1970-01-01", 3, 1, 2⟩ : StrongestEarthquake).date = epochMsToDateString e.time_ms
        ∧ (⟨5, "1970-01-01", 3, 1, 2⟩ : StrongestEarthquake).depth_km = round1 e.depth_km
        ∧ (⟨5, "1970-01-01", 3, 1, 2⟩ : StrongestEarthquake).latitude = round4 e.latitude
        ∧ (⟨5, "1970-01-01", 3, 1, 2⟩ : StrongestEarthquake).longitude = round4 e.longitude :=
  (C9_seismic_stats [quakeC9a, quakeC9b]).2 5 ⟨5, "1970-01-01", 3, 1, 2⟩ (by decide)

/-! Dictionary lemmas: lookup after insert, and characterizations of the
dictionary-building folds of `compute_trends`. -/

theorem dictGet?_nil (k : String) : dictGet? k ([] : List (String × α)) = none := rfl

theorem dictGet?_cons (k k1 : String) (v : α) (m : List (String × α)) :
    dictGet? k ((k1, v) :: m) = if k1 = k then some v else dictGet? k m := by
  by_cases h : k1 = k
  · rw [if_pos h]
    unfold dictGet?
    rw [List.find?_cons_of_pos _ (by simpa using h)]
    rfl
  · rw [if_neg h]
    unfold dictGet?
    rw [List.find?_cons_of_neg _ (by simpa using h)]

theorem dictGet?_dictInsert (k k1 : String) (v : α) (m : List (String × α)) :
    dictGet? k (dictInsert k1 v m) = if k1 = k then some v else dictGet? k m := by
  induction m with
  | nil =>
    unfold dictInsert
    rw [dictGet?_cons]
  | cons p rest ih =>
    obtain ⟨k2, v2⟩ := p
    unfold dictInsert
    by_cases h2 : k2 = k1
    · rw [if_pos h2, dictGet?_cons, dictGet?_cons]
      subst h2
      by_cases h3 : k2 = k
      · rw [if_pos h3, if_pos h3]
      · rw [if_neg h3, if_neg h3, if_neg h3]
    · rw [if_neg h2, dictGet?_cons, ih, dictGet?_cons]
      by_cases h3 : k2 = k
      · have h4 : ¬ k1 = k := fun hh => h2 (h3.trans hh.symm)
        rw [if_pos h3, if_neg h4, if_pos h3]
      · rw [if_neg h3, if_neg h3]

theorem dictGet?_setdefaultAppend (k k1 : String) (v : α)
    (m : List (String × List α)) :
    dictGet? k (setdefaultAppend k1 v m)
      = if k1 = k then some ((dictGet? k m).getD [] ++ [v]) else dictGet? k m := by
  induction m with
  | nil =>
    unfold setdefaultAppend
    rw [dictGet?_cons]
    by_cases h : k1 = k
    · rw [if_pos h, if_pos h]
      simp [dictGet?_nil]
    · rw [if_neg h, if_neg h]
  | cons p rest ih =>
    obtain ⟨k2, vs⟩ := p
    unfold setdefaultAppend
    by_cases h2 : k2 = k1
    · rw [if_pos h2, dictGet?_cons, dictGet?_cons]
      subst h2
      by_cases h3 : k2 = k
      · rw [if_pos h3, if_pos h3, if_pos h3]
        simp
      · rw [if_neg h3, if_neg h3, if_neg h3]
    · rw [if_neg h2, dictGet?_cons, ih, dictGet?_cons]
      by_cases h3 : k2 = k
      · have h4 : ¬ k1 = k := fun hh => h2 (h3.trans hh.symm)
        rw [if_pos h3, if_neg h4, if_pos h3]
      · rw [if_neg h3, if_neg h3]

theorem dictGet?_foldl_insert (key : β → String) (f : β → α) (l : List β)
    (m0 : List (String × α)) (k : String) :
    dictGet? k (l.foldl (fun m x => dictInsert (key x) (f x) m) m0)
      = match lastWithKey key k l with
        | some x => some (f x)
        | none => dictGet? k m0 := by
  induction l generalizing m0 with
  | nil => rfl
  | cons x xs ih =>
    rw [List.foldl_cons, ih]
    cases hf : xs.reverse.find? (fun y => key y == k) with
    | some y =>
      have h1 : lastWithKey key k xs = some y := hf
      have h2 : lastWithKey key k (x :: xs) = some y := by
        unfold lastWithKey
        rw [List.reverse_cons, List.find?_append, hf, Option.or_some]
      rw [h1, h2]
    | none =>
      have h1 : lastWithKey key k xs = none := hf
      have h2 : lastWithKey key k (x :: xs)
          = if (key x == k) = true then some x else none := by
        unfold lastWithKey
        rw [List.reverse_cons, List.find?_append, hf, Option.none_or]
        by_cases h : (key x == k) = true
        · rw [if_pos h]
          exact List.find?_cons_of_pos [] h
        · rw [if_neg h]
          have hx : List.find? (fun y => key y == k) [x]
              = List.find? (fun y => key y == k) [] := List.find?_cons_of_neg [] h
          exact hx
      rw [h1, h2, dictGet?_dictInsert]
      by_cases h : key x = k
      · rw [if_pos h, if_pos (by simpa using h)]
      · rw [if_neg h, if_neg (by simpa using h)]

theorem getD_foldl_setdefault (key : β → String) (val : β → α) (l : List β)
    (m0 : List (String × List α)) (k : String) :
    (dictGet? k (l.foldl (fun m x => setdefaultAppend (key x) (val x) m) m0)).getD []
      = (dictGet? k m0).getD [] ++ (l.filter (fun x => key x == k)).map val := by
  induction l generalizing m0 with
  | nil => simp
  | cons x xs ih =>
    rw [List.foldl_cons, ih]
    by_cases h : key x = k
    · have hb : (key x == k) = true := by simpa using h
      have hfil : (x :: xs).filter (fun y => key y == k)
          = x :: xs.filter (fun y => key y == k) := List.filter_cons_of_pos hb
      rw [hfil, List.map_cons, dictGet?_setdefaultAppend, if_pos h]
      simp only [Option.getD_some]
      rw [List.append_assoc, List.singleton_append]
    · have hb : ¬ (key x == k) = true := by simpa using h
      have hfil : (x :: xs).filter (fun y => key y == k)
          = xs.filter (fun y => key y == k) := List.filter_cons_of_neg hb
      rw [hfil, dictGet?_setdefaultAppend, if_neg h]

theorem foldl_flatMap_eq (g : γ → List β) (step : α → β → α) (l : List γ) (a0 : α) :
    (l.flatMap g).foldl step a0 = l.foldl (fun a c => (g c).foldl step a) a0 := by
  induction l generalizing a0 with
  | nil => rfl
  | cons c cs ih => rw [List.flatMap_cons, List.foldl_append, List.foldl_cons, ih]

/-! Characterizations of the dictionaries built by `compute_trends` in terms
of the specification-side functions. -/

theorem trajectoriesFold_eq (history : List DailySnapshot) :
    trajectoriesFold history
      = (history.flatMap (fun snap => snap.countries.map (fun cs => (snap.date, cs)))).foldl
          (fun m p => setdefaultAppend p.2.iso_alpha3 (p.1, p.2.score) m) [] := by
  unfold trajectoriesFold
  rw [foldl_flatMap_eq]
  congr 1
  funext m snap
  rw [List.foldl_map]

theorem countryTrajectory_eq (history : List DailySnapshot) (k : String) :
    ((history.flatMap (fun snap => snap.countries.map (fun cs => (snap.date, cs)))).filter
        (fun p => p.2.iso_alpha3 == k)).map (fun p => (p.1, p.2.score))
      = countryTrajectory history k := by
  unfold countryTrajectory
  rw [List.filter_flatMap, List.map_flatMap]
  congr 1
  funext snap
  rw [List.filter_map, List.map_map]
  rfl

theorem countryTraj_lookup (history : List DailySnapshot) (k : String) :
    (dictGet? k (trajectoriesFold history)).getD [] = countryTrajectory history k := by
  rw [trajectoriesFold_eq, getD_foldl_setdefault]
  rw [dictGet?_nil]
  simp only [Option.getD_none, List.nil_append]
  exact countryTrajectory_eq history k

theorem airportTrajectoriesFold_eq (history : List DailySnapshot) :
    airportTrajectoriesFold history
      = (history.flatMap (fun snap => snap.countries.flatMap (fun cs =>
          cs.airports.map (fun a => (snap.date, cs, a))))).foldl
          (fun m p => setdefaultAppend p.2.2.iata_code
            (p.1, p.2.2.exposure_score, p.2.1.iso_alpha3, p.2.2.name) m) [] := by
  unfold airportTrajectoriesFold
  rw [foldl_flatMap_eq]
  congr 1
  funext m snap
  rw [foldl_flatMap_eq]
  congr 1
  funext m2 cs
  rw [List.foldl_map]

theorem airportTrajectory_eq (history : List DailySnapshot) (k : String) :
    ((history.flatMap (fun snap => snap.countries.flatMap (fun cs =>
        cs.airports.map (fun a => (snap.date, cs, a))))).filter
        (fun p => p.2.2.iata_code == k)).map (fun p => (p.1, p.2.2.exposure_score))
      = airportTrajectory history k := by
  unfold airportTrajectory
  rw [List.filter_flatMap, List.map_flatMap]
  congr 1
  funext snap
  rw [List.filter_flatMap, List.map_flatMap]
  congr 1
  funext cs
  rw [List.filter_map, List.map_map]
  rfl

theorem airportTraj_lookup (history : List DailySnapshot) (k : String) :
    ((dictGet? k (airportTrajectoriesFold history)).getD []).map (fun t => (t.1, t.2.1))
      = airportTrajectory history k := by
  rw [airportTrajectoriesFold_eq, getD_foldl_setdefault]
  rw [dictGet?_nil]
  simp only [Option.getD_none, List.nil_append]
  rw [List.map_map]
  exact airportTrajectory_eq history k

theorem previousMapOf_lookup (snap : DailySnapshot) (k : String) :
    dictGet? k (previousMapOf snap)
      = lastWithKey (fun cs => cs.iso_alpha3) k snap.countries := by
  unfold previousMapOf
  rw [dictGet?_foldl_insert]
  cases h : lastWithKey (fun cs => cs.iso_alpha3) k snap.countries <;> simp [h, dictGet?_nil]

theorem currentMapOf_lookup (cur : List CountryRiskResult) (k : String) :
    dictGet? k (currentMapOf cur)
      = lastWithKey (fun r => r.iso_alpha3) k cur := by
  unfold currentMapOf
  rw [dictGet?_foldl_insert]
  cases h : lastWithKey (fun r : CountryRiskResult => r.iso_alpha3) k cur <;>
    simp [h, dictGet?_nil]

theorem previousAirportMapOf_eq (snap : DailySnapshot) :
    previousAirportMapOf snap
      = (snap.countries.flatMap (fun cs => cs.airports.map (fun a => (cs, a)))).foldl
          (fun m p => dictInsert p.2.iata_code p.2 m) [] := by
  unfold previousAirportMapOf
  rw [foldl_flatMap_eq]
  congr 1
  funext m cs
  rw [List.foldl_map]

theorem previousAirportMapOf_lookup (snap : DailySnapshot) (k : String) :
    dictGet? k (previousAirportMapOf snap)
      = (lastWithKey (fun p : CountrySnapshot × AirportSnapshot => p.2.iata_code) k
          (snap.countries.flatMap (fun cs => cs.airports.map (fun a => (cs, a))))).map
          (fun p => p.2) := by
  rw [previousAirportMapOf_eq, dictGet?_foldl_insert]
  cases h : lastWithKey (fun p : CountrySnapshot × AirportSnapshot => p.2.iata_code) k
      (snap.countries.flatMap (fun cs => cs.airports.map (fun a => (cs, a)))) <;>
    simp [h, dictGet?_nil]

theorem lastWithKey_pairs_airports (countries : List CountrySnapshot) (k : String) :
    (lastWithKey (fun p : CountrySnapshot × AirportSnapshot => p.2.iata_code) k
        (countries.flatMap (fun cs => cs.airports.map (fun a => (cs, a))))).map (fun p => p.2)
      = lastWithKey (fun a => a.iata_code) k (countries.flatMap (fun cs => cs.airports)) := by
  have hmap : countries.flatMap (fun cs => cs.airports)
      = (countries.flatMap (fun cs => cs.airports.map (fun a => (cs, a)))).map (fun p => p.2) := by
    rw [List.map_flatMap]
    congr 1
    funext cs
    rw [List.map_map]
    simp
  rw [hmap]
  unfold lastWithKey
  rw [← List.map_reverse, List.find?_map]
  rfl

/-! Key-uniqueness of the built dictionaries, and behaviour of the
"gone"-entity folds of `compute_trends`. -/

theorem mem_keys_dictInsert (k : String) (v : α) (m : List (String × α)) :
    ∀ x ∈ (dictInsert k v m).map Prod.fst, x = k ∨ x ∈ m.map Prod.fst := by
  induction m with
  | nil =>
    intro x hx
    simp [dictInsert] at hx
    exact Or.inl hx
  | cons p rest ih =>
    obtain ⟨k1, v1⟩ := p
    intro x hx
    unfold dictInsert at hx
    by_cases h : k1 = k
    · rw [if_pos h] at hx
      simp only [List.map_cons, List.mem_cons] at hx
      rcases hx with rfl | hx
      · exact Or.inl rfl
      · exact Or.inr (by simp [hx])
    · rw [if_neg h] at hx
      simp only [List.map_cons, List.mem_cons] at hx
      rcases hx with rfl | hx
      · exact Or.inr (by simp)
      · rcases ih x hx with hk | hm
        · exact Or.inl hk
        · exact Or.inr (by simp [hm])

theorem keysNodup_dictInsert (k : String) (v : α) (m : List (String × α))
    (h : (m.map Prod.fst).Nodup) : ((dictInsert k v m).map Prod.fst).Nodup := by
  induction m with
  | nil => simp [dictInsert]
  | cons p rest ih =>
    obtain ⟨k1, v1⟩ := p
    simp only [List.map_cons, List.nodup_cons] at h
    unfold dictInsert
    by_cases hk : k1 = k
    · rw [if_pos hk]
      simp only [List.map_cons, List.nodup_cons]
      subst hk
      exact h
    · rw [if_neg hk]
      simp only [List.map_cons, List.nodup_cons]
      constructor
      · intro hmem
        rcases mem_keys_dictInsert k v rest k1 hmem with h1 | h1
        · exact hk h1
        · exact h.1 h1
      · exact ih h.2

theorem keysNodup_foldl_insert (key : β → String) (f : β → α) (l : List β) :
    ∀ m0 : List (String × α), (m0.map Prod.fst).Nodup →
      ((l.foldl (fun m x => dictInsert (key x) (f x) m) m0).map Prod.fst).Nodup := by
  induction l with
  | nil => intro m0 h; exact h
  | cons x xs ih =>
    intro m0 h
    rw [List.foldl_cons]
    exact ih _ (keysNodup_dictInsert (key x) (f x) m0 h)

theorem goneCountryFold_lookup_preserved (curm : List (String × CountryRiskResult))
    (traj : List (String × List (String × ℚ)))
    (ps : List (String × CountrySnapshot)) (k : String) :
    ∀ acc : List (String × CountryTrend) × List String,
      (dictGet? k curm).isSome = true →
      dictGet? k ((ps.foldl (fun acc p =>
          if (dictGet? p.1 curm).isNone then
            (dictInsert p.1 (mkGoneCountryTrend traj p.1 p.2) acc.1, acc.2 ++ [p.1])
          else acc) acc).1)
        = dictGet? k acc.1 := by
  induction ps with
  | nil => intro acc _; rfl
  | cons p rest ih =>
    intro acc hk
    rw [List.foldl_cons]
    by_cases h : (dictGet? p.1 curm).isNone = true
    · rw [if_pos h, ih _ hk]
      dsimp only
      rw [dictGet?_dictInsert, if_neg]
      intro he
      rw [he, Option.isNone_iff_eq_none] at h
      rw [h] at hk
      exact absurd hk (by simp)
    · rw [if_neg h]
      exact ih _ hk

theorem goneCountryFold_gone_mono (curm : List (String × CountryRiskResult))
    (traj : List (String × List (String × ℚ)))
    (ps : List (String × CountrySnapshot)) (k : String) :
    ∀ acc : List (String × CountryTrend) × List String,
      k ∈ acc.2 →
      k ∈ ((ps.foldl (fun acc p =>
          if (dictGet? p.1 curm).isNone then
            (dictInsert p.1 (mkGoneCountryTrend traj p.1 p.2) acc.1, acc.2 ++ [p.1])
          else acc) acc).2) := by
  induction ps with
  | nil => intro acc h; exact h
  | cons p rest ih =>
    intro acc h
    rw [List.foldl_cons]
    by_cases hp : (dictGet? p.1 curm).isNone = true
    · rw [if_pos hp]
      exact ih _ (List.mem_append_left _ h)
    · rw [if_neg hp]
      exact ih _ h

theorem goneCountryFold_lookup_of_not_mem (curm : List (String × CountryRiskResult))
    (traj : List (String × List (String × ℚ)))
    (ps : List (String × CountrySnapshot)) (k : String)
    (hnm : k ∉ ps.map Prod.fst) :
    ∀ acc : List (String × CountryTrend) × List String,
      dictGet? k ((ps.foldl (fun acc p =>
          if (dictGet? p.1 curm).isNone then
            (dictInsert p.1 (mkGoneCountryTrend traj p.1 p.2) acc.1, acc.2 ++ [p.1])
          else acc) acc).1)
        = dictGet? k acc.1 := by
  induction ps with
  | nil => intro acc; rfl
  | cons p rest ih =>
    intro acc
    simp only [List.map_cons, List.mem_cons] at hnm
    push_neg at hnm
    rw [List.foldl_cons]
    by_cases hp : (dictGet? p.1 curm).isNone = true
    · rw [if_pos hp, ih hnm.2 _]
      dsimp only
      rw [dictGet?_dictInsert, if_neg (fun he => hnm.1 he.symm)]
    · rw [if_neg hp]
      exact ih hnm.2 _

theorem goneCountryFold_gone (curm : List (String × CountryRiskResult))
    (traj : List (String × List (String × ℚ)))
    (ps : List (String × CountrySnapshot)) (k : String) (cs : CountrySnapshot)
    (hcur : dictGet? k curm = none) :
    ∀ acc : List (String × CountryTrend) × List String,
      (ps.map Prod.fst).Nodup → dictGet? k ps = some cs →
      dictGet? k ((ps.foldl (fun acc p =>
          if (dictGet? p.1 curm).isNone then
            (dictInsert p.1 (mkGoneCountryTrend traj p.1 p.2) acc.1, acc.2 ++ [p.1])
          else acc) acc).1)
        = some (mkGoneCountryTrend traj k cs)
      ∧ k ∈ ((ps.foldl (fun acc p =>
          if (dictGet? p.1 curm).isNone then
            (dictInsert p.1 (mkGoneCountryTrend traj p.1 p.2) acc.1, acc.2 ++ [p.1])
          else acc) acc).2) := by
  induction ps with
  | nil =>
    intro acc _ hprev
    rw [dictGet?_nil] at hprev
    exact absurd hprev (by simp)
  | cons p rest ih =>
    intro acc hnodup hprev
    obtain ⟨k1, v1⟩ := p
    rw [dictGet?_cons] at hprev
    simp only [List.map_cons, List.nodup_cons] at hnodup
    rw [List.foldl_cons]
    by_cases h1 : k1 = k
    · rw [if_pos h1] at hprev
      injection hprev with hv
      subst hv
      subst h1
      rw [if_pos (by rw [hcur]; rfl)]
      constructor
      · rw [goneCountryFold_lookup_of_not_mem curm traj rest k1 hnodup.1 _]
        dsimp only
        rw [dictGet?_dictInsert, if_pos rfl]
      · apply goneCountryFold_gone_mono
        dsimp only
        simp
    · rw [if_neg h1] at hprev
      by_cases h2 : (dictGet? k1 curm).isNone = true
      · rw [if_pos h2]
        exact ih _ hnodup.2 hprev
      · rw [if_neg h2]
        exact ih _ hnodup.2 hprev

theorem goneAirportFold_lookup_preserved (cur : List CountryRiskResult)
    (atraj : List (String × List (String × ℚ × String × String)))
    (pac : List (String × String))
    (ps : List (String × AirportSnapshot)) (k : String)
    (hk : (currentAirportIatas cur).contains k = true) :
    ∀ m0 : List (String × AirportTrend),
      dictGet? k (ps.foldl (fun m p =>
          if (currentAirportIatas cur).contains p.1 then m
          else dictInsert p.1 (mkGoneAirportTrend atraj pac p.1 p.2) m) m0)
        = dictGet? k m0 := by
  induction ps with
  | nil => intro m0; rfl
  | cons p rest ih =>
    intro m0
    rw [List.foldl_cons]
    by_cases h : (currentAirportIatas cur).contains p.1 = true
    · rw [if_pos h]
      exact ih _
    · rw [if_neg h, ih _]
      rw [dictGet?_dictInsert, if_neg]
      intro he
      rw [he] at h
      exact h hk

theorem goneAirportFold_lookup_of_not_mem (cur : List CountryRiskResult)
    (atraj : List (String × List (String × ℚ × String × String)))
    (pac : List (String × String))
    (ps : List (String × AirportSnapshot)) (k : String)
    (hnm : k ∉ ps.map Prod.fst) :
    ∀ m0 : List (String × AirportTrend),
      dictGet? k (ps.foldl (fun m p =>
          if (currentAirportIatas cur).contains p.1 then m
          else dictInsert p.1 (mkGoneAirportTrend atraj pac p.1 p.2) m) m0)
        = dictGet? k m0 := by
  induction ps with
  | nil => intro m0; rfl
  | cons p rest ih =>
    intro m0
    simp only [List.map_cons, List.mem_cons] at hnm
    push_neg at hnm
    rw [List.foldl_cons]
    by_cases h : (currentAirportIatas cur).contains p.1 = true
    · rw [if_pos h]
      exact ih hnm.2 _
    · rw [if_neg h, ih hnm.2 _]
      rw [dictGet?_dictInsert, if_neg (fun he => hnm.1 he.symm)]

theorem goneAirportFold_gone (cur : List CountryRiskResult)
    (atraj : List (String × List (String × ℚ × String × String)))
    (pac : List (String × String))
    (ps : List (String × AirportSnapshot)) (k : String) (a : AirportSnapshot)
    (hnc : ¬ (currentAirportIatas cur).contains k = true) :
    ∀ m0 : List (String × AirportTrend),
      (ps.map Prod.fst).Nodup → dictGet? k ps = some a →
      dictGet? k (ps.foldl (fun m p =>
          if (currentAirportIatas cur).contains p.1 then m
          else dictInsert p.1 (mkGoneAirportTrend atraj pac p.1 p.2) m) m0)
        = some (mkGoneAirportTrend atraj pac k a) := by
  induction ps with
  | nil =>
    intro m0 _ hprev
    rw [dictGet?_nil] at hprev
    exact absurd hprev (by simp)
  | cons p rest ih =>
    intro m0 hnodup hprev
    obtain ⟨k1, v1⟩ := p
    rw [dictGet?_cons] at hprev
    simp only [List.map_cons, List.nodup_cons] at hnodup
    rw [List.foldl_cons]
    by_cases h1 : k1 = k
    · rw [if_pos h1] at hprev
      injection hprev with hv
      subst hv
      subst h1
      rw [if_neg hnc]
      rw [goneAirportFold_lookup_of_not_mem cur atraj pac rest k1 hnodup.1 _]
      rw [dictGet?_dictInsert, if_pos rfl]
    · rw [if_neg h1] at hprev
      by_cases h2 : (currentAirportIatas cur).contains k1 = true
      · rw [if_pos h2]
        exact ih _ hnodup.2 hprev
      · rw [if_neg h2]
        exact ih _ hnodup.2 hprev

theorem currentAirportTrendsFold_eq
    (T : List (String × List (String × ℚ × String × String)))
    (PA : List (String × AirportSnapshot)) (today : String)
    (cur : List CountryRiskResult) :
    cur.foldl (fun m r => r.exposed_airports.foldl (fun m exposed_ap =>
        dictInsert exposed_ap.iata_code
          (mkAirportTrend T PA today r.iso_alpha3 exposed_ap) m) m) []
      = (cur.flatMap (fun r => r.exposed_airports.map (fun a => (r, a)))).foldl
          (fun m p => dictInsert p.2.iata_code
            (mkAirportTrend T PA today p.1.iso_alpha3 p.2) m) [] := by
  rw [foldl_flatMap_eq]
  congr 1
  funext m r
  rw [List.foldl_map]

/-! Claim C5: trend computation for entities present in the current
results. -/

/-- C5: `compute_trends` returns no trends exactly when the history is empty;
otherwise, for every entity (country, and likewise airport) of the current
results — keyed with dictionary semantics, so the hypothesis names the last
record carrying the key — the resulting trend takes `previous_score` from the
single most recent snapshot (`none` there meaning no previous entry, even
when the entity occurs deeper in history, in which case the direction is
"new" while the score series still lists every history occurrence with
today's value appended last), the stored delta is `current - previous`
(0.0 with no previous entry), and the direction is "up" iff the delta
exceeds 0.5, "down" iff it is below -0.5, and "stable" otherwise; in the
spec's scenario (one prior snapshot at 30.0, current 42.85) the direction is
"up" with delta 12.85 and previous 30.0. -/
theorem C5_compute_trends (today method : String) (history : List DailySnapshot)
    (cur : List CountryRiskResult) :
    (compute_trends today history cur method = none ↔ history = [])
    ∧ (∀ s, compute_trends today history cur method = some s →
        (∀ r : CountryRiskResult,
          lastWithKey (fun r2 => r2.iso_alpha3) r.iso_alpha3 cur = some r →
          ∃ t, dictGet? r.iso_alpha3 s.country_trends = some t
            ∧ t.current_score = round2 r.seismic_hub_risk_score
            ∧ t.previous_score
                = (prevCountrySnapshot history r.iso_alpha3).map (fun cs => cs.score)
            ∧ t.scores = (countryTrajectory history r.iso_alpha3).map (fun p => p.2)
                ++ [t.current_score]
            ∧ t.dates = (countryTrajectory history r.iso_alpha3).map (fun p => p.1)
                ++ [today]
            ∧ (prevCountrySnapshot history r.iso_alpha3 = none →
                t.trend_direction = "new" ∧ t.score_delta = 0 ∧ t.is_new = true)
            ∧ (∀ cs, prevCountrySnapshot history r.iso_alpha3 = some cs →
                t.score_delta = round2 (t.current_score - cs.score)
                ∧ (t.trend_direction = "up" ↔ t.current_score - cs.score > 0.5)
                ∧ (t.trend_direction = "down" ↔ t.current_score - cs.score < -0.5)
                ∧ (t.trend_direction = "stable" ↔
                    (t.current_score - cs.score ≤ 0.5
                      ∧ -(0.5 : ℚ) ≤ t.current_score - cs.score))))
        ∧ (∀ (r : CountryRiskResult) (a : ExposedAirport),
            lastWithKey (fun p : CountryRiskResult × ExposedAirport => p.2.iata_code)
              a.iata_code (cur.flatMap (fun r2 => r2.exposed_airports.map (fun a2 => (r2, a2))))
              = some (r, a) →
            ∃ t, dictGet? a.iata_code s.airport_trends = some t
              ∧ t.current_score = round2 a.exposure_score
              ∧ t.previous_score
                  = (prevAirportSnapshot history a.iata_code).map (fun ps => ps.exposure_score)
              ∧ t.scores = (airportTrajectory history a.iata_code).map (fun p => p.2)
                  ++ [t.current_score]
              ∧ t.dates = (airportTrajectory history a.iata_code).map (fun p => p.1)
                  ++ [today]
              ∧ (prevAirportSnapshot history a.iata_code = none →
                  t.trend_direction = "new" ∧ t.score_delta = 0 ∧ t.is_new = true)
              ∧ (∀ ps, prevAirportSnapshot history a.iata_code = some ps →
                  t.score_delta = round2 (t.current_score - ps.exposure_score)
                  ∧ (t.trend_direction = "up" ↔ t.current_score - ps.exposure_score > 0.5)
                  ∧ (t.trend_direction = "down" ↔ t.current_score - ps.exposure_score < -0.5)
                  ∧ (t.trend_direction = "stable" ↔
                      (t.current_score - ps.exposure_score ≤ 0.5
                        ∧ -(0.5 : ℚ) ≤ t.current_score - ps.exposure_score)))))
    ∧ ((compute_trends "2026-10-12" histUp curUp "exposure").bind
        (fun s => dictGet? "JPN" s.country_trends)).map
        (fun t => (t.trend_direction, t.score_delta, t.previous_score))
      = some ("up", 12.85, some 30.0) := by
  refine ⟨?_, ?_, by decide⟩
  · unfold compute_trends
    dsimp only
    cases hg : history.getLast? with
    | none => simp [List.getLast?_eq_none_iff.mp hg]
    | some ps =>
      apply iff_of_false (by simp)
      intro he
      rw [he] at hg
      exact absurd hg (by simp)
  · intro s hs
    unfold compute_trends at hs
    dsimp only at hs
    cases hg : history.getLast? with
    | none =>
      rw [hg] at hs
      exact absurd hs (by simp)
    | some psnap =>
      rw [hg] at hs
      simp only [Option.some.injEq] at hs
      subst hs
      constructor
      · -- countries in current results
        intro r hlast
        have hcm : dictGet? r.iso_alpha3 (currentMapOf cur)
            = some r := by rw [currentMapOf_lookup, hlast]
        have hphase2 : dictGet? r.iso_alpha3
            ((countryTrendsAll today history cur psnap).1)
            = dictGet? r.iso_alpha3
                (cur.foldl (fun m r2 =>
                  dictInsert r2.iso_alpha3
                    (mkCountryTrend (trajectoriesFold history)
                      (previousMapOf psnap) today r2) m) []) := by
          unfold countryTrendsAll
          exact goneCountryFold_lookup_preserved _ _ _ _ _ (by rw [hcm]; rfl)
        have hphase1 : dictGet? r.iso_alpha3
            (cur.foldl (fun m r2 =>
              dictInsert r2.iso_alpha3
                (mkCountryTrend (trajectoriesFold history)
                  (previousMapOf psnap) today r2) m) [])
            = some (mkCountryTrend (trajectoriesFold history)
                (previousMapOf psnap) today r) := by
          rw [dictGet?_foldl_insert, hlast]
        refine ⟨mkCountryTrend (trajectoriesFold history) (previousMapOf psnap) today r,
          ?_, ?_⟩
        · show dictGet? r.iso_alpha3 ((countryTrendsAll today history cur psnap).1) = _
          rw [hphase2, hphase1]
        · have hprevEq : dictGet? r.iso_alpha3 (previousMapOf psnap)
              = prevCountrySnapshot history r.iso_alpha3 := by
            rw [previousMapOf_lookup]
            unfold prevCountrySnapshot
            rw [hg]
            rfl
          have htraj := countryTraj_lookup history r.iso_alpha3
          unfold mkCountryTrend
          dsimp only
          rw [hprevEq, htraj]
          refine ⟨rfl, rfl, rfl, rfl, ?_, ?_⟩
          · intro hnone
            rw [hnone]
            simp only [Option.map_none']
            refine ⟨trivial, by decide, rfl⟩
          · intro cs hsome
            rw [hsome]
            dsimp only [Option.map_some']
            unfold DELTA_THRESHOLD
            refine ⟨rfl, ?_, ?_, ?_⟩
            · constructor
              · intro hdir
                by_cases h1 : round2 r.seismic_hub_risk_score - cs.score > 0.5
                · exact h1
                · rw [if_neg h1] at hdir
                  split_ifs at hdir <;> exact absurd hdir (by decide)
              · intro h1
                rw [if_pos h1]
            · constructor
              · intro hdir
                by_cases h1 : round2 r.seismic_hub_risk_score - cs.score > 0.5
                · rw [if_pos h1] at hdir
                  exact absurd hdir (by decide)
                · rw [if_neg h1] at hdir
                  by_cases h2 : round2 r.seismic_hub_risk_score - cs.score < -0.5
                  · exact h2
                  · rw [if_neg h2] at hdir
                    exact absurd hdir (by decide)
              · intro h2
                rw [if_neg (by linarith), if_pos h2]
            · constructor
              · intro hdir
                by_cases h1 : round2 r.seismic_hub_risk_score - cs.score > 0.5
                · rw [if_pos h1] at hdir
                  exact absurd hdir (by decide)
                · by_cases h2 : round2 r.seismic_hub_risk_score - cs.score < -0.5
                  · rw [if_neg h1, if_pos h2] at hdir
                    exact absurd hdir (by decide)
                  · exact ⟨by linarith, by linarith⟩
              · rintro ⟨h1, h2⟩
                rw [if_neg (by linarith), if_neg (by linarith)]
      · -- airports in current results
        intro r a hlast
        have hmemA : (r, a) ∈ cur.flatMap
            (fun r2 => r2.exposed_airports.map (fun a2 => (r2, a2))) := by
          have := List.mem_of_find?_eq_some hlast
          exact List.mem_reverse.mp this
        have hmem2 : a ∈ r.exposed_airports ∧ r ∈ cur := by
          rw [List.mem_flatMap] at hmemA
          obtain ⟨r2, hr2, hmm⟩ := hmemA
          rw [List.mem_map] at hmm
          obtain ⟨a2, ha2, heq⟩ := hmm
          injection heq with h1 h2
          subst h1
          subst h2
          exact ⟨ha2, hr2⟩
        have hiata : a.iata_code ∈ currentAirportIatas cur := by
          unfold currentAirportIatas
          rw [List.mem_flatten]
          exact ⟨r.exposed_airports.map (fun a2 => a2.iata_code),
            List.mem_map_of_mem _ hmem2.2, List.mem_map_of_mem _ hmem2.1⟩
        have hcont : (currentAirportIatas cur).contains a.iata_code = true :=
          List.elem_eq_true_of_mem hiata
        have hphase2 : dictGet? a.iata_code (airportTrendsAll today history cur psnap)
            = dictGet? a.iata_code
                (cur.foldl (fun m r2 => r2.exposed_airports.foldl (fun m exposed_ap =>
                  dictInsert exposed_ap.iata_code
                    (mkAirportTrend (airportTrajectoriesFold history)
                      (previousAirportMapOf psnap) today r2.iso_alpha3 exposed_ap) m) m) []) := by
          unfold airportTrendsAll
          exact goneAirportFold_lookup_preserved _ _ _ _ _ hcont _
        have hfold := dictGet?_foldl_insert
          (fun p : CountryRiskResult × ExposedAirport => p.2.iata_code)
          (fun p => mkAirportTrend (airportTrajectoriesFold history)
            (previousAirportMapOf psnap) today p.1.iso_alpha3 p.2)
          (cur.flatMap (fun r2 => r2.exposed_airports.map (fun a2 => (r2, a2))))
          [] a.iata_code
        have hphase1 : dictGet? a.iata_code
            (cur.foldl (fun m r2 => r2.exposed_airports.foldl (fun m exposed_ap =>
              dictInsert exposed_ap.iata_code
                (mkAirportTrend (airportTrajectoriesFold history)
                  (previousAirportMapOf psnap) today r2.iso_alpha3 exposed_ap) m) m) [])
            = some (mkAirportTrend (airportTrajectoriesFold history)
                (previousAirportMapOf psnap) today r.iso_alpha3 a) := by
          rw [currentAirportTrendsFold_eq, hfold, hlast]
        refine ⟨mkAirportTrend (airportTrajectoriesFold history)
          (previousAirportMapOf psnap) today r.iso_alpha3 a, ?_, ?_⟩
        · show dictGet? a.iata_code (airportTrendsAll today history cur psnap) = _
          rw [hphase2, hphase1]
        · have hprevEq : dictGet? a.iata_code (previousAirportMapOf psnap)
              = prevAirportSnapshot history a.iata_code := by
            rw [previousAirportMapOf_lookup, lastWithKey_pairs_airports]
            unfold prevAirportSnapshot
            rw [hg]
            rfl
          have hT := airportTraj_lookup history a.iata_code
          have hscores : ((dictGet? a.iata_code (airportTrajectoriesFold history)).getD []).map
              (fun t => t.2.1) = (airportTrajectory history a.iata_code).map (fun p => p.2) := by
            rw [← hT, List.map_map]
            rfl
          have hdates : ((dictGet? a.iata_code (airportTrajectoriesFold history)).getD []).map
              (fun t => t.1) = (airportTrajectory history a.iata_code).map (fun p => p.1) := by
            rw [← hT, List.map_map]
            rfl
          unfold mkAirportTrend
          dsimp only
          rw [hprevEq]
          refine ⟨rfl, rfl, by rw [hscores], by rw [hdates], ?_, ?_⟩
          · intro hnone
            rw [hnone]
            simp only [Option.map_none']
            refine ⟨trivial, by decide, rfl⟩
          · intro ps hsome
            rw [hsome]
            dsimp only [Option.map_some']
            unfold DELTA_THRESHOLD
            refine ⟨rfl, ?_, ?_, ?_⟩
            · constructor
              · intro hdir
                by_cases h1 : round2 a.exposure_score - ps.exposure_score > 0.5
                · exact h1
                · rw [if_neg h1] at hdir
                  split_ifs at hdir <;> exact absurd hdir (by decide)
              · intro h1
                rw [if_pos h1]
            · constructor
              · intro hdir
                by_cases h1 : round2 a.exposure_score - ps.exposure_score > 0.5
                · rw [if_pos h1] at hdir
                  exact absurd hdir (by decide)
                · rw [if_neg h1] at hdir
                  by_cases h2 : round2 a.exposure_score - ps.exposure_score < -0.5
                  · exact h2
                  · rw [if_neg h2] at hdir
                    exact absurd hdir (by decide)
              · intro h2
                rw [if_neg (by linarith), if_pos h2]
            · constructor
              · intro hdir
                by_cases h1 : round2 a.exposure_score - ps.exposure_score > 0.5
                · rw [if_pos h1] at hdir
                  exact absurd hdir (by decide)
                · by_cases h2 : round2 a.exposure_score - ps.exposure_score < -0.5
                  · rw [if_neg h1, if_pos h2] at hdir
                    exact absurd hdir (by decide)
                  · exact ⟨by linarith, by linarith⟩
              · rintro ⟨h1, h2⟩
                rw [if_neg (by linarith), if_neg (by linarith)]

/-- Witness for C5 at the spec's scenario: one prior snapshot with country
score 30.0 and current score 42.85. -/
theorem C5_witness :
    ∃ t, dictGet? resultUp.iso_alpha3 summaryUp.country_trends = some t
      ∧ t.current_score = round2 resultUp.seismic_hub_risk_score
      ∧ t.previous_score
          = (prevCountrySnapshot histUp resultUp.iso_alpha3).map (fun cs => cs.score)
      ∧ t.scores = (countryTrajectory histUp resultUp.iso_alpha3).map (fun p => p.2)
          ++ [t.current_score]
      ∧ t.dates = (countryTrajectory histUp resultUp.iso_alpha3).map (fun p => p.1)
          ++ ["2026-10-12"]
      ∧ (prevCountrySnapshot histUp resultUp.iso_alpha3 = none →
          t.trend_direction = "new" ∧ t.score_delta = 0 ∧ t.is_new = true)
      ∧ (∀ cs, prevCountrySnapshot histUp resultUp.iso_alpha3 = some cs →
          t.score_delta = round2 (t.current_score - cs.score)
          ∧ (t.trend_direction = "up" ↔ t.current_score - cs.score > 0.5)
          ∧ (t.trend_direction = "down" ↔ t.current_score - cs.score < -0.5)
          ∧ (t.trend_direction = "stable" ↔
              (t.current_score - cs.score ≤ 0.5
                ∧ -(0.5 : ℚ) ≤ t.current_score - cs.score))) :=
  ((C5_compute_trends "2026-10-12" "exposure" histUp curUp).2.1 summaryUp
    (by decide)).1 resultUp (by decide)

/-! Claim C6: entities that disappeared from the current results. -/

/-- C6 counterexample: in the `histGone`/`curGone` scenario the airport HND
is present in the most recent snapshot and absent from the current results;
`compute_trends` classifies it "gone" with current score 0.0 and delta -5.0,
yet no gone list contains it — the summary's only gone list,
`gone_countries`, holds just "USA". So a gone *airport* is not "listed in
the gone list" as the claim states for every entity. -/
theorem C6_counterexample :
    compute_trends "2026-10-12" histGone curGone "exposure" = some summaryGone
    ∧ (dictGet? "HND" summaryGone.airport_trends).map
        (fun t => (t.trend_direction, t.is_gone, t.current_score, t.score_delta))
      = some ("gone", true, 0, -5)
    ∧ "HND" ∉ summaryGone.gone_countries := by
  refine ⟨by decide, by decide, by decide⟩

/-- C6 (amended): for every country present in the most recent history
snapshot but absent from the current results, `compute_trends` produces a
trend classified "gone" with `current_score = 0.0`,
`delta = -previous_score`, a retained score series of only the prior history
occurrences, and lists the country in `gone_countries`; a disappeared
*airport* receives the same "gone"/`is_gone` trend with the same fields but
appears in no gone list, because the summary carries no airport gone
list. -/
theorem C6_gone_trends (today method : String) (history : List DailySnapshot)
    (cur : List CountryRiskResult) :
    ∀ s, compute_trends today history cur method = some s →
      (∀ psnap cs, history.getLast? = some psnap →
        lastWithKey (fun c => c.iso_alpha3) cs.iso_alpha3 psnap.countries = some cs →
        (∀ r ∈ cur, r.iso_alpha3 ≠ cs.iso_alpha3) →
        ∃ t, dictGet? cs.iso_alpha3 s.country_trends = some t
          ∧ t.trend_direction = "gone" ∧ t.is_gone = true
          ∧ t.current_score = 0
          ∧ t.previous_score = some cs.score
          ∧ t.score_delta = round2 (-cs.score)
          ∧ t.scores = (countryTrajectory history cs.iso_alpha3).map (fun p => p.2)
          ∧ t.dates = (countryTrajectory history cs.iso_alpha3).map (fun p => p.1)
          ∧ cs.iso_alpha3 ∈ s.gone_countries)
      ∧ (∀ psnap (pa : CountrySnapshot × AirportSnapshot),
          history.getLast? = some psnap →
          lastWithKey (fun p : CountrySnapshot × AirportSnapshot => p.2.iata_code)
            pa.2.iata_code
            (psnap.countries.flatMap (fun c => c.airports.map (fun a2 => (c, a2))))
            = some pa →
          (∀ r ∈ cur, ∀ a2 ∈ r.exposed_airports, a2.iata_code ≠ pa.2.iata_code) →
          ∃ t, dictGet? pa.2.iata_code s.airport_trends = some t
            ∧ t.trend_direction = "gone" ∧ t.is_gone = true
            ∧ t.current_score = 0
            ∧ t.previous_score = some pa.2.exposure_score
            ∧ t.score_delta = round2 (-pa.2.exposure_score)
            ∧ t.scores = (airportTrajectory history pa.2.iata_code).map (fun p => p.2)
            ∧ t.dates = (airportTrajectory history pa.2.iata_code).map (fun p => p.1)) := by
  intro s hs
  unfold compute_trends at hs
  dsimp only at hs
  cases hg0 : history.getLast? with
  | none =>
    rw [hg0] at hs
    exact absurd hs (by simp)
  | some psnap0 =>
    rw [hg0] at hs
    simp only [Option.some.injEq] at hs
    subst hs
    constructor
    · -- gone countries
      intro psnap cs hg hlastP habsent
      injection hg with he
      subst he
      have hcm : dictGet? cs.iso_alpha3 (currentMapOf cur) = none := by
        rw [currentMapOf_lookup]
        unfold lastWithKey
        rw [List.find?_eq_none]
        intro x hx
        simp only [beq_iff_eq]
        exact habsent x (List.mem_reverse.mp hx)
      have hprevLookup : dictGet? cs.iso_alpha3 (previousMapOf psnap0) = some cs := by
        rw [previousMapOf_lookup]
        exact hlastP
      have hnodup : ((previousMapOf psnap0).map Prod.fst).Nodup := by
        unfold previousMapOf
        exact keysNodup_foldl_insert _ _ _ _ (by simp)
      have hmain := goneCountryFold_gone (currentMapOf cur) (trajectoriesFold history)
        (previousMapOf psnap0) cs.iso_alpha3 cs hcm
        (cur.foldl (fun m r =>
          dictInsert r.iso_alpha3
            (mkCountryTrend (trajectoriesFold history) (previousMapOf psnap0) today r) m) [],
         [])
        hnodup hprevLookup
      refine ⟨mkGoneCountryTrend (trajectoriesFold history) cs.iso_alpha3 cs, ?_,
        rfl, rfl, by show (0.0 : ℚ) = 0; decide, rfl, rfl, ?_, ?_, ?_⟩
      · show dictGet? cs.iso_alpha3 ((countryTrendsAll today history cur psnap0).1) = _
        unfold countryTrendsAll
        exact hmain.1
      · unfold mkGoneCountryTrend
        dsimp only
        rw [countryTraj_lookup]
      · unfold mkGoneCountryTrend
        dsimp only
        rw [countryTraj_lookup]
      · show cs.iso_alpha3 ∈ (countryTrendsAll today history cur psnap0).2
        unfold countryTrendsAll
        exact hmain.2
    · -- gone airports
      intro psnap pa hg hlastP habsent
      injection hg with he
      subst he
      have hnotmem : pa.2.iata_code ∉ currentAirportIatas cur := by
        unfold currentAirportIatas
        rw [List.mem_flatten]
        rintro ⟨l, hl, hkl⟩
        rw [List.mem_map] at hl
        obtain ⟨r, hr, rfl⟩ := hl
        rw [List.mem_map] at hkl
        obtain ⟨a2, ha2, hk2⟩ := hkl
        exact habsent r hr a2 ha2 hk2
      have hnc : ¬ (currentAirportIatas cur).contains pa.2.iata_code = true :=
        fun hc => hnotmem (List.mem_of_elem_eq_true hc)
      have hprevA : dictGet? pa.2.iata_code (previousAirportMapOf psnap0) = some pa.2 := by
        rw [previousAirportMapOf_lookup, hlastP]
        rfl
      have hnodupA : ((previousAirportMapOf psnap0).map Prod.fst).Nodup := by
        rw [previousAirportMapOf_eq]
        exact keysNodup_foldl_insert _ _ _ _ (by simp)
      have hmain := goneAirportFold_gone cur (airportTrajectoriesFold history)
        (previousAirportCountryOf psnap0) (previousAirportMapOf psnap0)
        pa.2.iata_code pa.2 hnc
        (cur.foldl (fun m r => r.exposed_airports.foldl (fun m exposed_ap =>
          dictInsert exposed_ap.iata_code
            (mkAirportTrend (airportTrajectoriesFold history)
              (previousAirportMapOf psnap0) today r.iso_alpha3 exposed_ap) m) m) [])
        hnodupA hprevA
      have hT := airportTraj_lookup history pa.2.iata_code
      have hscores : ((dictGet? pa.2.iata_code (airportTrajectoriesFold history)).getD []).map
          (fun t => t.2.1) = (airportTrajectory history pa.2.iata_code).map (fun p => p.2) := by
        rw [← hT, List.map_map]
        rfl
      have hdates : ((dictGet? pa.2.iata_code (airportTrajectoriesFold history)).getD []).map
          (fun t => t.1) = (airportTrajectory history pa.2.iata_code).map (fun p => p.1) := by
        rw [← hT, List.map_map]
        rfl
      refine ⟨mkGoneAirportTrend (airportTrajectoriesFold history)
        (previousAirportCountryOf psnap0) pa.2.iata_code pa.2, ?_,
        rfl, rfl, by show (0.0 : ℚ) = 0; decide, rfl, rfl, ?_, ?_⟩
      · show dictGet? pa.2.iata_code (airportTrendsAll today history cur psnap0) = _
        unfold airportTrendsAll
        exact hmain
      · unfold mkGoneAirportTrend
        dsimp only
        rw [hscores]
      · unfold mkGoneAirportTrend
        dsimp only
        rw [hdates]

/-- Witness for C6 at the `histGone`/`curGone` scenario, for both the gone
country USA and the gone airport HND. -/
theorem C6_witness :
    (∃ t, dictGet? csUSA.iso_alpha3 summaryGone.country_trends = some t
      ∧ t.trend_direction = "gone" ∧ t.is_gone = true
      ∧ t.current_score = 0
      ∧ t.previous_score = some csUSA.score
      ∧ t.score_delta = round2 (-csUSA.score)
      ∧ t.scores = (countryTrajectory histGone csUSA.iso_alpha3).map (fun p => p.2)
      ∧ t.dates = (countryTrajectory histGone csUSA.iso_alpha3).map (fun p => p.1)
      ∧ csUSA.iso_alpha3 ∈ summaryGone.gone_countries)
    ∧ (∃ t, dictGet? (csJPN, apHND).2.iata_code summaryGone.airport_trends = some t
      ∧ t.trend_direction = "gone" ∧ t.is_gone = true
      ∧ t.current_score = 0
      ∧ t.previous_score = some (csJPN, apHND).2.exposure_score
      ∧ t.score_delta = round2 (-(csJPN, apHND).2.exposure_score)
      ∧ t.scores = (airportTrajectory histGone (csJPN, apHND).2.iata_code).map (fun p => p.2)
      ∧ t.dates = (airportTrajectory histGone (csJPN, apHND).2.iata_code).map (fun p => p.1)) :=
  ⟨(C6_gone_trends "2026-10-12" "exposure" histGone curGone summaryGone (by decide)).1
      ⟨"2026-10-11", "exposure", [csJPN, csUSA]⟩ csUSA (by decide) (by decide) (by decide),
   (C6_gone_trends "2026-10-12" "exposure" histGone curGone summaryGone (by decide)).2
      ⟨"2026-10-11", "exposure", [csJPN, csUSA]⟩ (csJPN, apHND) (by decide) (by decide)
      (by decide)⟩

end SeismicRisk
